import Mathlib

/-!
Shallow embedding of the ledger accounting module of the yupi repository
(`app/utils/cuan_helpers.py`, `app/utils/transaction_helpers.py`,
`app/routers/cuan.py`) and proofs about it.

Modelling conventions:
* `uuid.UUID` (and the legacy integer primary keys) are modelled as `Nat`.
* `Decimal` amounts are modelled as `Rat` (exact arithmetic, as `Decimal`).
* `datetime` values are modelled either as microsecond counts (`Int`) or as a
  civil `DateTime` structure, matching which representation the code touches.
* A SQLAlchemy session is modelled as a `Db` structure holding the three
  tables as lists; `query(...).filter(...).first()` becomes `List.find?` and
  aggregate `sum` queries become folds over filtered lists.
* `raise HTTPException(status_code, detail)` becomes `Except.error` carrying
  an `HTTPError`; interpolated parts of detail strings are dropped, the
  constant prefix of each message is kept.
-/

namespace Yupi

/-- `TransactionType` enum from `app/models/cuan.py`. -/
inductive TransactionType where
  | income
  | expense
  | transfer
deriving DecidableEq

/-- `TrxAccountType` enum from `app/models/cuan.py`. -/
inductive TrxAccountType where
  | bank_account
  | credit_card
  | other
deriving DecidableEq

/-- `TrxCategoryType` enum from `app/models/cuan.py`. -/
inductive TrxCategoryType where
  | income
  | expense
deriving DecidableEq

/-- An `HTTPException` as raised by the helpers: status code plus detail. -/
structure HTTPError where
  status_code : Nat
  detail : String
deriving DecidableEq

/-- `TrxAccount` model row (`app/models/cuan.py`): id, name, type, optional
credit limit, owning user. Display-only columns (description, timestamps) are
omitted. -/
structure TrxAccount where
  id : Nat
  name : String
  type : TrxAccountType
  limit : Option Rat
  user_id : Nat
deriving DecidableEq

/-- `TrxCategory` model row (`app/models/cuan.py`). -/
structure TrxCategory where
  id : Nat
  name : String
  type : TrxCategoryType
  user_id : Nat
deriving DecidableEq

/-- `Transaction` model row (`app/models/cuan.py`). `transaction_date` and
`created_at` are microsecond timestamps. -/
structure Transaction where
  id : Nat
  transaction_date : Int
  description : String
  amount : Rat
  transaction_type : TransactionType
  transfer_fee : Rat
  account_id : Nat
  category_id : Option Nat
  destination_account_id : Option Nat
  user_id : Nat
  created_at : Int
deriving DecidableEq

/-- The `TransactionCreate` request schema (`app/schemas/cuan.py`): the
payload for creating or fully replacing a transaction.  Note that the schema
puts no sign constraint on `amount` or `transfer_fee` and allows
`destination_account_id` on every transaction type. -/
structure TransactionCreate where
  transaction_date : Int
  description : String
  amount : Rat
  transaction_type : TransactionType
  account_id : Nat
  category_id : Option Nat
  destination_account_id : Option Nat
  transfer_fee : Rat
deriving DecidableEq

/-- The relational store: the three tables the ledger module queries. -/
structure Db where
  accounts : List TrxAccount
  categories : List TrxCategory
  transactions : List Transaction
deriving DecidableEq

/-- `validate_account` (`cuan_helpers.py`): account scoped to the owning
user, 404 when absent. -/
def validate_account (db : Db) (id : Nat) (user_id : Nat) :
    Except HTTPError TrxAccount :=
  match db.accounts.find? (fun a => decide (a.id = id ∧ a.user_id = user_id)) with
  | some account => .ok account
  | none => .error ⟨404, "TrxAccount not found"⟩

/-- `validate_category` (`cuan_helpers.py`): `none` passes through, otherwise
the category must exist and belong to the user. -/
def validate_category (db : Db) (id : Option Nat) (user_id : Nat) :
    Except HTTPError (Option TrxCategory) :=
  match id with
  | none => .ok none
  | some cid =>
    match db.categories.find? (fun c => decide (c.id = cid ∧ c.user_id = user_id)) with
    | some category => .ok (some category)
    | none => .error ⟨404, "TrxCategory not found"⟩

/-- `validate_transaction_category_match` (`cuan_helpers.py`, semantically
identical to the `transaction_helpers.py` version): income transactions need
income categories, expense transactions need expense categories, `none`
category and transfers are never rejected. -/
def validate_transaction_category_match (transaction_type : TransactionType)
    (category : Option TrxCategory) : Except HTTPError Unit :=
  match category with
  | none => .ok ()
  | some c =>
    if transaction_type = TransactionType.income ∧ c.type ≠ TrxCategoryType.income then
      .error ⟨400, "Income transactions must use an income category"⟩
    else if transaction_type = TransactionType.expense ∧ c.type ≠ TrxCategoryType.expense then
      .error ⟨400, "Expense transactions must use an expense category"⟩
    else
      .ok ()

/-- `validate_transfer` (`cuan_helpers.py`).  For non-transfers the only
check is `transfer_fee > 0`; for transfers the checks run in source order:
destination present, fee non-negative, source distinct from destination,
destination account exists for the user.  Returns the resolved destination
account for a valid transfer and `none` for a valid non-transfer. -/
def validate_transfer (transaction_type : TransactionType)
    (destination_account_id : Option Nat) (source_account_id : Nat)
    (transfer_fee : Rat) (db : Db) (user_id : Nat) :
    Except HTTPError (Option TrxAccount) :=
  if transaction_type ≠ TransactionType.transfer then
    if transfer_fee > 0 then
      .error ⟨400, "Transfer fee can only be applied to transfer transactions"⟩
    else
      .ok none
  else
    match destination_account_id with
    | none => .error ⟨400, "Destination account is required for transfers"⟩
    | some dest =>
      if transfer_fee < 0 then
        .error ⟨400, "Transfer fee cannot be negative"⟩
      else if source_account_id = dest then
        .error ⟨400, "Source and destination accounts cannot be the same for transfers"⟩
      else
        match db.accounts.find? (fun a => decide (a.id = dest ∧ a.user_id = user_id)) with
        | none => .error ⟨404, "Destination account not found"⟩
        | some dest_account => .ok (some dest_account)

/-- `SUM(amount)` over the transactions selected by a predicate, modelling
the `func.sum`/`case` aggregate queries (an empty selection sums to `0`,
matching the `coalesce(..., 0)` / `or Decimal(0)` in the code). -/
def sumAmount (txs : List Transaction) (p : Transaction → Bool) : Rat :=
  ((txs.filter p).map Transaction.amount).sum

/-- `SUM(transfer_fee)` over the transactions selected by a predicate. -/
def sumFee (txs : List Transaction) (p : Transaction → Bool) : Rat :=
  ((txs.filter p).map Transaction.transfer_fee).sum

/-- The result dictionary of both `calculate_account_balance`
implementations.  `payable_in_result` records whether the `payable_balance`
key is present in the returned dict at all (the two implementations differ
here), `payable_balance` its value when present (`none` models a `None`
value). -/
structure BalanceSummary where
  balance : Rat
  total_income : Rat
  total_expenses : Rat
  total_transfers_in : Rat
  total_transfers_out : Rat
  total_transfer_fees : Rat
  payable_balance : Option Rat
  payable_in_result : Bool
deriving DecidableEq

/-- The account lookup shared by both `calculate_account_balance`
implementations: scoped to the user when a user id is supplied
(`if user_id:` in the code), by id alone otherwise. -/
def lookup_account (db : Db) (account_id : Nat) (user_id : Option Nat) :
    Option TrxAccount :=
  match user_id with
  | some u => db.accounts.find? (fun a => decide (a.id = account_id ∧ a.user_id = u))
  | none => db.accounts.find? (fun a => decide (a.id = account_id))

namespace TransactionHelpers

/-- Income query of `transaction_helpers.calculate_account_balance`:
`sum(amount)` where `account_id = A` and type is income. -/
def income_sum (txs : List Transaction) (A : Nat) : Rat :=
  sumAmount txs (fun t =>
    decide (t.account_id = A ∧ t.transaction_type = TransactionType.income))

/-- Expense query: `sum(amount)` where `account_id = A` and type is expense. -/
def expenses_sum (txs : List Transaction) (A : Nat) : Rat :=
  sumAmount txs (fun t =>
    decide (t.account_id = A ∧ t.transaction_type = TransactionType.expense))

/-- Transfers-out query: `sum(amount)` where `account_id = A`, type transfer. -/
def transfers_out_sum (txs : List Transaction) (A : Nat) : Rat :=
  sumAmount txs (fun t =>
    decide (t.account_id = A ∧ t.transaction_type = TransactionType.transfer))

/-- Transfers-in query: `sum(amount)` where `destination_account_id = A`,
type transfer. -/
def transfers_in_sum (txs : List Transaction) (A : Nat) : Rat :=
  sumAmount txs (fun t =>
    decide (t.destination_account_id = some A ∧ t.transaction_type = TransactionType.transfer))

/-- Transfer-fee query: `sum(transfer_fee)` where `account_id = A`, type
transfer. -/
def transfer_fees_sum (txs : List Transaction) (A : Nat) : Rat :=
  sumFee txs (fun t =>
    decide (t.account_id = A ∧ t.transaction_type = TransactionType.transfer))

/-- The balance formula of `transaction_helpers.calculate_account_balance`:
`income - expenses - transfers_out - transfer_fees + transfers_in`. -/
def balance_of (txs : List Transaction) (A : Nat) : Rat :=
  income_sum txs A - expenses_sum txs A - transfers_out_sum txs A -
    transfer_fees_sum txs A + transfers_in_sum txs A

/-- The dict built by `transaction_helpers.calculate_account_balance` once
the account was found.  The `payable_balance` key is added only for credit
card accounts with a non-null limit; note the five per-type queries never
filter on `user_id`. -/
def balance_summary (txs : List Transaction) (A : Nat) (account : TrxAccount) :
    BalanceSummary :=
  { balance := balance_of txs A
    total_income := income_sum txs A
    total_expenses := expenses_sum txs A
    total_transfers_in := transfers_in_sum txs A
    total_transfers_out := transfers_out_sum txs A
    total_transfer_fees := transfer_fees_sum txs A
    payable_balance :=
      match account.limit with
      | some l =>
        if account.type = TrxAccountType.credit_card then some (l - balance_of txs A)
        else none
      | none => none
    payable_in_result :=
      decide (account.type = TrxAccountType.credit_card) && account.limit.isSome }

/-- `transaction_helpers.calculate_account_balance`: look up the account
(user-scoped when a user id is given), 404 when absent, otherwise run the
five per-type aggregate queries. -/
def calculate_account_balance (db : Db) (account_id : Nat)
    (user_id : Option Nat) : Except HTTPError BalanceSummary :=
  match lookup_account db account_id user_id with
  | none => .error ⟨404, "TrxAccount not found"⟩
  | some account => .ok (balance_summary db.transactions account_id account)

end TransactionHelpers

namespace CuanHelpers

/-- The row filter of the single aggregate query in
`cuan_helpers.calculate_account_balance`: transactions that reference the
account as source or destination and belong to the scoping user (the given
`user_id` or, when absent, the account owner). -/
def related (A : Nat) (uid : Nat) (t : Transaction) : Bool :=
  decide ((t.account_id = A ∨ t.destination_account_id = some A) ∧ t.user_id = uid)

/-- `case((type == INCOME, amount), else_=0)` summed over the related rows.
There is no source-account condition in this `case`. -/
def income_sum (txs : List Transaction) (A : Nat) (uid : Nat) : Rat :=
  sumAmount txs (fun t =>
    related A uid t && decide (t.transaction_type = TransactionType.income))

/-- `case((type == EXPENSE, amount), else_=0)` summed over the related rows. -/
def expenses_sum (txs : List Transaction) (A : Nat) (uid : Nat) : Rat :=
  sumAmount txs (fun t =>
    related A uid t && decide (t.transaction_type = TransactionType.expense))

/-- `case((and_(type == TRANSFER, account_id == A), amount), else_=0)`. -/
def transfers_out_sum (txs : List Transaction) (A : Nat) (uid : Nat) : Rat :=
  sumAmount txs (fun t =>
    related A uid t &&
      decide (t.transaction_type = TransactionType.transfer ∧ t.account_id = A))

/-- `case((and_(type == TRANSFER, account_id == A), transfer_fee), else_=0)`. -/
def transfer_fees_sum (txs : List Transaction) (A : Nat) (uid : Nat) : Rat :=
  sumFee txs (fun t =>
    related A uid t &&
      decide (t.transaction_type = TransactionType.transfer ∧ t.account_id = A))

/-- `case((destination_account_id == A, amount), else_=0)`: note there is no
transaction-type condition in this `case`. -/
def transfers_in_sum (txs : List Transaction) (A : Nat) (uid : Nat) : Rat :=
  sumAmount txs (fun t =>
    related A uid t && decide (t.destination_account_id = some A))

/-- The dict built by `cuan_helpers.calculate_account_balance` once the
account was found; the `payable_balance` key is always present, holding
`None` except for credit cards with a limit. -/
def balance_summary (txs : List Transaction) (A : Nat) (uid : Nat)
    (account : TrxAccount) : BalanceSummary :=
  let balance := income_sum txs A uid + transfers_in_sum txs A uid -
    expenses_sum txs A uid - transfers_out_sum txs A uid - transfer_fees_sum txs A uid
  { balance := balance
    total_income := income_sum txs A uid
    total_expenses := expenses_sum txs A uid
    total_transfers_in := transfers_in_sum txs A uid
    total_transfers_out := transfers_out_sum txs A uid
    total_transfer_fees := transfer_fees_sum txs A uid
    payable_balance :=
      match account.limit with
      | some l =>
        if account.type = TrxAccountType.credit_card then some (l - balance)
        else none
      | none => none
    payable_in_result := true }

/-- `cuan_helpers.calculate_account_balance`: account lookup as in the other
implementation, then the single aggregate query, scoped to
`user_id if user_id else account.user_id`. -/
def calculate_account_balance (db : Db) (account_id : Nat)
    (user_id : Option Nat) : Except HTTPError BalanceSummary :=
  match lookup_account db account_id user_id with
  | none => .error ⟨404, "TrxAccount not found"⟩
  | some account =>
    .ok (balance_summary db.transactions account_id
      (user_id.getD account.user_id) account)

/-- One output row of `cuan_helpers.get_accounts_with_balance` for `account`:
the grouped outer join selects every transaction referencing the account as
source or destination — with no user filter on the transaction — and applies
the same `case` aggregates as `calculate_account_balance`. -/
def gawb_row (txs : List Transaction) (account : TrxAccount) : BalanceSummary :=
  let sel : Transaction → Bool := fun t =>
    decide (t.account_id = account.id ∨ t.destination_account_id = some account.id)
  let total_income := sumAmount txs (fun t =>
    sel t && decide (t.transaction_type = TransactionType.income))
  let total_expenses := sumAmount txs (fun t =>
    sel t && decide (t.transaction_type = TransactionType.expense))
  let total_transfers_out := sumAmount txs (fun t =>
    sel t && decide (t.transaction_type = TransactionType.transfer ∧ t.account_id = account.id))
  let total_transfer_fees := sumFee txs (fun t =>
    sel t && decide (t.transaction_type = TransactionType.transfer ∧ t.account_id = account.id))
  let total_transfers_in := sumAmount txs (fun t =>
    sel t && decide (t.destination_account_id = some account.id))
  let balance := total_income + total_transfers_in - total_expenses -
    total_transfers_out - total_transfer_fees
  { balance := balance
    total_income := total_income
    total_expenses := total_expenses
    total_transfers_in := total_transfers_in
    total_transfers_out := total_transfers_out
    total_transfer_fees := total_transfer_fees
    payable_balance :=
      match account.limit with
      | some l =>
        if account.type = TrxAccountType.credit_card then some (l - balance)
        else none
      | none => none
    payable_in_result := true }

/-- `cuan_helpers.get_accounts_with_balance` restricted to the balance data:
one `gawb_row` per account of the user.  The display sorting and the
optional account-type filter only reorder / drop whole rows and are omitted;
the per-account values are what the claims are about. -/
def get_accounts_with_balance (db : Db) (user_id : Nat) :
    List (TrxAccount × BalanceSummary) :=
  (db.accounts.filter (fun a => decide (a.user_id = user_id))).map
    (fun a => (a, gawb_row db.transactions a))

end CuanHelpers

/-- `prepare_transaction_for_db` (`cuan_helpers.py`): builds the model row
from the payload, a fresh id and the owning user.  The fresh uuid and the
server-side `created_at` timestamp are passed in as parameters. -/
def prepare_transaction_for_db (tx : TransactionCreate) (user_id : Nat)
    (new_id : Nat) (created_at : Int) : Transaction :=
  { id := new_id
    transaction_date := tx.transaction_date
    description := tx.description
    amount := tx.amount
    transaction_type := tx.transaction_type
    transfer_fee := tx.transfer_fee
    account_id := tx.account_id
    category_id := tx.category_id
    destination_account_id := tx.destination_account_id
    user_id := user_id
    created_at := created_at }

/-- `create_transaction` (`app/routers/cuan.py`): validate account, category
and category match; for an expense on a credit card reject when the current
balance (per `cuan_helpers.calculate_account_balance`, unscoped) is `≤ 0`;
then validate transfer details and append the new row.  Any raised
`HTTPException` propagates and nothing is written. -/
def create_transaction (db : Db) (tx : TransactionCreate) (user_id : Nat)
    (new_id : Nat) (created_at : Int) : Except HTTPError Db := do
  let account ← validate_account db tx.account_id user_id
  let category ← validate_category db tx.category_id user_id
  let _ ← validate_transaction_category_match tx.transaction_type category
  let _ ←
    if tx.transaction_type = TransactionType.expense ∧
        account.type = TrxAccountType.credit_card then do
      let balance_details ← CuanHelpers.calculate_account_balance db account.id none
      if balance_details.balance ≤ 0 then
        Except.error ⟨400, "Cannot create expense with this credit card - no available balance. Please top up by creating a transfer to this account."⟩
      else
        Except.ok ()
    else
      Except.ok ()
  let _ ← validate_transfer tx.transaction_type tx.destination_account_id
    tx.account_id tx.transfer_fee db user_id
  .ok { db with
    transactions := db.transactions ++ [prepare_transaction_for_db tx user_id new_id created_at] }

/-- Applying a `TransactionCreate` payload to an existing row, as the
`.update(transaction_update.model_dump())` call does: every payload field is
replaced, id, owner and `created_at` are kept. -/
def apply_update (t : Transaction) (upd : TransactionCreate) : Transaction :=
  { t with
    transaction_date := upd.transaction_date
    description := upd.description
    amount := upd.amount
    transaction_type := upd.transaction_type
    transfer_fee := upd.transfer_fee
    account_id := upd.account_id
    category_id := upd.category_id
    destination_account_id := upd.destination_account_id }

/-- `update_transaction` (`app/routers/cuan.py`): find the transaction
(user-scoped, 404 when absent), validate account / category / match; when the
new data is an expense on a credit card and the guard condition holds (prior
type was not expense, or the amount increases), recompute the balance, add
back the prior amount if the prior row was an expense on the same account,
and reject when `adjusted - new_amount < 0`; then validate transfer details
and replace the row's payload fields. -/
def update_transaction (db : Db) (txId : Nat) (upd : TransactionCreate)
    (user_id : Nat) : Except HTTPError Db := do
  let existing ←
    match db.transactions.find? (fun t => decide (t.id = txId ∧ t.user_id = user_id)) with
    | some t => Except.ok t
    | none => Except.error (⟨404, "Transaction not found"⟩ : HTTPError)
  let account ← validate_account db upd.account_id user_id
  let category ← validate_category db upd.category_id user_id
  let _ ← validate_transaction_category_match upd.transaction_type category
  let _ ←
    if upd.transaction_type = TransactionType.expense ∧
        account.type = TrxAccountType.credit_card ∧
        (existing.transaction_type ≠ TransactionType.expense ∨
          existing.amount < upd.amount) then do
      let balance_details ← CuanHelpers.calculate_account_balance db account.id none
      let adjusted_balance := balance_details.balance +
        (if existing.transaction_type = TransactionType.expense ∧
            existing.account_id = upd.account_id then existing.amount else 0)
      if adjusted_balance - upd.amount < 0 then
        Except.error ⟨400, "Insufficient credit card balance for this update. Please top up the account."⟩
      else
        Except.ok ()
    else
      Except.ok ()
  let _ ← validate_transfer upd.transaction_type upd.destination_account_id
    upd.account_id upd.transfer_fee db user_id
  .ok { db with
    transactions := db.transactions.map (fun t =>
      if t.id = txId ∧ t.user_id = user_id then apply_update t upd else t) }

/-- A civil UTC datetime with microsecond precision, as Python's
timezone-aware `datetime` used by `cuan_helpers.calculate_date_range`. -/
structure DateTime where
  year : Int
  month : Int
  day : Int
  hour : Int
  minute : Int
  second : Int
  microsecond : Int
deriving DecidableEq

/-- Day count since 1970-01-01 of a civil date (standard proleptic Gregorian
day-number algorithm, as underlies Python's `datetime` ordinal). -/
def daysFromCivil (y m d : Int) : Int :=
  let y := if m ≤ 2 then y - 1 else y
  let era := y / 400
  let yoe := y - era * 400
  let mp := if 2 < m then m - 3 else m + 9
  let doy := (153 * mp + 2) / 5 + d - 1
  let doe := yoe * 365 + yoe / 4 - yoe / 100 + doy
  era * 146097 + doe - 719468

/-- Microseconds per day. -/
def microsPerDay : Int := 86400000000

/-- Total microseconds since the 1970 epoch of a `DateTime`. -/
def DateTime.toMicros (dt : DateTime) : Int :=
  daysFromCivil dt.year dt.month dt.day * microsPerDay +
    dt.hour * 3600000000 + dt.minute * 60000000 + dt.second * 1000000 +
    dt.microsecond

/-- Civil date of a day count since the 1970 epoch (inverse of
`daysFromCivil`). -/
def civilFromDays (z0 : Int) : Int × Int × Int :=
  let z := z0 + 719468
  let era := z / 146097
  let doe := z - era * 146097
  let yoe := (doe - doe / 1460 + doe / 36524 - doe / 146096) / 365
  let y := yoe + era * 400
  let doy := doe - (365 * yoe + yoe / 4 - yoe / 100)
  let mp := (5 * doy + 2) / 153
  let d := doy - (153 * mp + 2) / 5 + 1
  let m := if mp < 10 then mp + 3 else mp - 9
  (if m ≤ 2 then y + 1 else y, m, d)

/-- `DateTime` of a microsecond count since the 1970 epoch. -/
def DateTime.ofMicros (x : Int) : DateTime :=
  let days := x / microsPerDay
  let rem := x - days * microsPerDay
  let ymd := civilFromDays days
  { year := ymd.1
    month := ymd.2.1
    day := ymd.2.2
    hour := rem / 3600000000
    minute := (rem % 3600000000) / 60000000
    second := (rem % 60000000) / 1000000
    microsecond := rem % 1000000 }

/-- Python `datetime ± timedelta` arithmetic, exact in microseconds. -/
def DateTime.addMicros (dt : DateTime) (k : Int) : DateTime :=
  DateTime.ofMicros (dt.toMicros + k)

/-- Python's `datetime.weekday()`: Monday is `0`.  1970-01-01 (day `0`) was a
Thursday. -/
def DateTime.weekday (dt : DateTime) : Int :=
  (daysFromCivil dt.year dt.month dt.day + 3) % 7

/-- Leap-year test, as `calendar`. -/
def isLeap (y : Int) : Bool :=
  (y % 4 = 0 ∧ y % 100 ≠ 0) ∨ y % 400 = 0

/-- `calendar.monthrange(y, m)[1]`: the last day of the month. -/
def monthLastDay (y m : Int) : Int :=
  if m = 2 then (if isLeap y then 29 else 28)
  else if m = 4 ∨ m = 6 ∨ m = 9 ∨ m = 11 then 30
  else 31

/-- `dt.replace(hour=0, minute=0, second=0, microsecond=0)`. -/
def DateTime.atMidnight (dt : DateTime) : DateTime :=
  { dt with hour := 0, minute := 0, second := 0, microsecond := 0 }

/-- Python `str.lower()` on ASCII content (Lean's own `String.toLower` is
implemented with an opaque positional recursion; this equivalent map over
the character list keeps the model executable). -/
def pyLower (s : String) : String := String.mk (s.data.map Char.toLower)

/-- `cuan_helpers.calculate_date_range`, with `now = datetime.now(UTC)`
passed explicitly.  The token is lowercased first; `day`, `week`, `month` and
`year` build an interval inside the current day / ISO week / month / year
ending one microsecond before the next period; `all` starts at the fixed
epoch 2000-01-01 and ends at `now`; anything else raises `ValueError`. -/
def calculate_date_range (period : String) (now : DateTime) :
    Except String (DateTime × DateTime) :=
  let period := pyLower period
  if period = "day" then
    let start_date := now.atMidnight
    .ok (start_date, start_date.addMicros (microsPerDay - 1))
  else if period = "week" then
    let start_date := (now.addMicros (-(now.weekday * microsPerDay))).atMidnight
    .ok (start_date, start_date.addMicros (7 * microsPerDay - 1))
  else if period = "month" then
    let start_date := { now.atMidnight with day := 1 }
    let last_day := monthLastDay now.year now.month
    .ok (start_date, DateTime.addMicros { start_date with day := last_day } (microsPerDay - 1))
  else if period = "year" then
    let start_date := { now.atMidnight with month := 1, day := 1 }
    .ok (start_date, DateTime.addMicros { start_date with year := now.year + 1 } (-1))
  else if period = "all" then
    .ok (⟨2000, 1, 1, 0, 0, 0, 0⟩, now)
  else
    .error "Invalid period. Must be one of: day, week, month, year, all"

/-- Contiguous-subsequence test on character lists, the core of SQL
`ILIKE '%pat%'`. -/
def containsSeq (needle : List Char) : List Char → Bool
  | [] => needle.isEmpty
  | c :: rest => needle.isPrefixOf (c :: rest) || containsSeq needle rest

/-- `column.ilike(f"%pat%")`: case-insensitive substring match. -/
def ilike (pat s : String) : Bool :=
  containsSeq (pyLower pat).data (pyLower s).data

/-- `TransactionType(s.lower())`: parse-or-fail enum coercion. -/
def parseTransactionType (s : String) : Option TransactionType :=
  if pyLower s = "income" then some TransactionType.income
  else if pyLower s = "expense" then some TransactionType.expense
  else if pyLower s = "transfer" then some TransactionType.transfer
  else none

/-- The sort keys accepted by `cuan_helpers.get_filtered_transactions`. -/
def validOrderFields : List String := ["created_at", "transaction_date", "amount"]

/-- Ascending comparison by the whitelisted sort field. -/
def orderLe (order_by : String) (t u : Transaction) : Bool :=
  if order_by = "transaction_date" then decide (t.transaction_date ≤ u.transaction_date)
  else if order_by = "amount" then decide (t.amount ≤ u.amount)
  else decide (t.created_at ≤ u.created_at)

/-- `cuan_helpers.get_filtered_transactions` with `now` passed explicitly:
the user's transactions, narrowed by optional account-name / category-name /
type / date filters, sorted by a whitelisted field.  Name filters that match
no entity raise 404; an invalid type, period token or sort field raises 400. -/
def get_filtered_transactions (db : Db) (user_id : Nat)
    (account_name category_name transaction_type : Option String)
    (start_date end_date : Option DateTime) (date_filter_type : Option String)
    (order_by sort_order : String) (now : DateTime) :
    Except HTTPError (List Transaction) := do
  let q0 := db.transactions.filter (fun t => decide (t.user_id = user_id))
  let q1 ←
    match account_name with
    | none => Except.ok q0
    | some nm =>
      let account_ids := (db.accounts.filter (fun a =>
        decide (a.user_id = user_id) && ilike nm a.name)).map TrxAccount.id
      if account_ids.isEmpty then
        Except.error (⟨404, "Account with name not found"⟩ : HTTPError)
      else
        Except.ok (q0.filter (fun t =>
          account_ids.contains t.account_id ||
            (match t.destination_account_id with
             | some d => account_ids.contains d
             | none => false)))
  let q2 ←
    match category_name with
    | none => Except.ok q1
    | some nm =>
      let category_ids := (db.categories.filter (fun c =>
        decide (c.user_id = user_id) && ilike nm c.name)).map TrxCategory.id
      if category_ids.isEmpty then
        Except.error (⟨404, "Category with name not found"⟩ : HTTPError)
      else
        Except.ok (q1.filter (fun t =>
          match t.category_id with
          | some c => category_ids.contains c
          | none => false))
  let q3 ←
    match transaction_type with
    | none => Except.ok q2
    | some s =>
      match parseTransactionType s with
      | some tt => Except.ok (q2.filter (fun t => decide (t.transaction_type = tt)))
      | none => Except.error (⟨400, "Invalid transaction type"⟩ : HTTPError)
  let bounds ←
    match date_filter_type with
    | none => Except.ok (start_date, end_date)
    | some p =>
      match calculate_date_range p now with
      | .ok (s, e) => Except.ok (some s, some e)
      | .error msg => Except.error (⟨400, msg⟩ : HTTPError)
  let q4 :=
    match bounds.1 with
    | some s => q3.filter (fun (t : Transaction) => decide (s.toMicros ≤ t.transaction_date))
    | none => q3
  let q5 :=
    match bounds.2 with
    | some e => q4.filter (fun (t : Transaction) => decide (t.transaction_date ≤ e.toMicros))
    | none => q4
  if order_by ∈ validOrderFields then
    if pyLower sort_order = "desc" then
      .ok (q5.mergeSort (fun a b => orderLe order_by b a))
    else
      .ok (q5.mergeSort (fun a b => orderLe order_by a b))
  else
    .error ⟨400, "Invalid order_by field. Must be one of: created_at, transaction_date, amount"⟩

/-- The body of the `TransactionList` response returned by the
`GET /cuan/transactions` endpoint. -/
structure TransactionListResult where
  data : List Transaction
  total_count : Nat
  has_more : Bool
  limit : Nat
  skip : Nat
  message : String
deriving DecidableEq

/-- `get_transactions` (`app/routers/cuan.py`): run the filter query, count,
page with a `limit + 1` probe — and, crucially, catch any `HTTPException`
from the helpers and turn it into a success-shaped body whose `message` is
the error detail. -/
def get_transactions (db : Db) (user_id : Nat)
    (account_name category_name transaction_type : Option String)
    (start_date end_date : Option DateTime) (date_filter_type : Option String)
    (order_by sort_order : String) (limit skip : Nat) (now : DateTime) :
    TransactionListResult :=
  match get_filtered_transactions db user_id account_name category_name
      transaction_type start_date end_date date_filter_type order_by
      sort_order now with
  | .error e =>
    { data := [], total_count := 0, has_more := false, limit := limit,
      skip := skip, message := e.detail }
  | .ok q =>
    let total_count := q.length
    let page := (q.drop skip).take (limit + 1)
    let has_more := decide (limit < page.length)
    { data := if has_more then page.take limit else page
      total_count := total_count
      has_more := has_more
      limit := limit
      skip := skip
      message := "Transactions retrieved successfully" }

/-! Concrete fixtures used by witnesses and counterexamples. -/

/-- A bank account of user 1. -/
def acctA : TrxAccount := ⟨1, "Checking", TrxAccountType.bank_account, none, 1⟩

/-- A second bank account of user 1. -/
def acctB : TrxAccount := ⟨2, "Savings", TrxAccountType.bank_account, none, 1⟩

/-- An income transaction of user 1 whose source is account 2 but which also
carries `destination_account_id = 1` — accepted by every validation path
(`validate_transfer` only checks the fee on non-transfers, and the schema
allows a destination on any type). -/
def oddIncomeTx : Transaction :=
  ⟨10, 0, "income with destination set", 10, TransactionType.income, 0, 2, none, some 1, 1, 0⟩

/-- Store with the two bank accounts and the odd income transaction. -/
def exDb1 : Db := ⟨[acctA, acctB], [], [oddIncomeTx]⟩

/-- A credit-card account of user 1 with limit 500. -/
def ccAcct : TrxAccount := ⟨3, "Visa", TrxAccountType.credit_card, some 500, 1⟩

/-- An income category of user 1. -/
def incomeCat : TrxCategory := ⟨5, "Other", TrxCategoryType.income, 1⟩

/-- An expense category of user 1. -/
def expenseCat : TrxCategory := ⟨6, "Stuff", TrxCategoryType.expense, 1⟩

/-- An income of 50 into the credit-card account. -/
def seedIncome : Transaction :=
  ⟨11, 0, "seed income", 50, TransactionType.income, 0, 3, some 5, none, 1, 0⟩

/-- Store with the credit-card account holding balance 50. -/
def exDb2 : Db := ⟨[ccAcct], [incomeCat, expenseCat], [seedIncome]⟩

/-- An expense payload of 100 against the credit-card account: larger than
the available balance of 50. -/
def bigExpense : TransactionCreate :=
  ⟨0, "big expense", 100, TransactionType.expense, 3, some 6, none, 0⟩

/-- An existing expense of 30 on the credit-card account. -/
def seedExpense : Transaction :=
  ⟨20, 0, "seed expense", 30, TransactionType.expense, 0, 3, some 6, none, 1, 0⟩

/-- Store with the credit-card account holding balance 20 (income 50,
expense 30). -/
def exDb3 : Db := ⟨[ccAcct], [incomeCat, expenseCat], [seedIncome, seedExpense]⟩

/-- A fixed clock value for calls that need `now`. -/
def exNow : DateTime := ⟨2026, 3, 14, 15, 9, 26, 535897⟩

/-- A transfer of 200 with fee 5 from account 1 to account 2 of user 1. -/
def exTransfer : Transaction :=
  ⟨30, 0, "transfer", 200, TransactionType.transfer, 5, 1, none, some 2, 1, 0⟩

/-- Payload raising the seed expense from 30 to 60 (more than the adjusted
balance 50 allows). -/
def updExpense60 : TransactionCreate :=
  ⟨0, "bigger expense", 60, TransactionType.expense, 3, some 6, none, 0⟩

/-- Payload raising the seed expense from 30 to 40 (within the adjusted
balance 50). -/
def updExpense40 : TransactionCreate :=
  ⟨0, "slightly bigger expense", 40, TransactionType.expense, 3, some 6, none, 0⟩

/-! ## Claim theorems -/

/-- C3 counterexample: a non-transfer transaction with `transfer_fee = -1`,
which is a fee different from 0, is accepted by `validate_transfer`
(returning `.ok none`), refuting the claim that every non-zero fee on a
non-transfer transaction is rejected — only positive fees are. -/
theorem c3_counterexample :
    validate_transfer TransactionType.income none 1 (-1) exDb1 1 = .ok none ∧
      (-1 : Rat) ≠ 0 := by
  refine ⟨?_, by norm_num⟩
  rfl

/-- C3 (amended): for every transaction whose type is not transfer,
`validate_transfer` rejects with a validation error exactly when
`transfer_fee > 0`, and returns null — without touching the destination
account — whenever `transfer_fee ≤ 0` (so a negative fee is accepted). -/
theorem c3_nontransfer_fee (t : TransactionType) (dst : Option Nat)
    (src : Nat) (fee : Rat) (db : Db) (u : Nat)
    (ht : t ≠ TransactionType.transfer) :
    (0 < fee → validate_transfer t dst src fee db u =
      .error ⟨400, "Transfer fee can only be applied to transfer transactions"⟩) ∧
    (fee ≤ 0 → validate_transfer t dst src fee db u = .ok none) := by
  unfold validate_transfer
  rw [if_pos ht]
  exact ⟨fun h => by rw [if_pos h], fun h => by rw [if_neg (not_lt.mpr h)]⟩

/-- C3 witness: the amended theorem applied at a concrete income
transaction with zero fee. -/
theorem c3_witness :
    validate_transfer TransactionType.income none 1 0 exDb1 1 = .ok none :=
  (c3_nontransfer_fee TransactionType.income none 1 0 exDb1 1 (by decide)).2
    (by norm_num)

/-- C4: for every transfer transaction, `validate_transfer` succeeds with the
resolved destination account exactly when the destination id is present, the
fee is non-negative, source and destination differ, and the destination
account exists for the user; each failing check rejects with the message
naming the violated condition, in source order. -/
theorem c4_transfer_validation (dst : Option Nat) (src : Nat) (fee : Rat)
    (db : Db) (u : Nat) :
    (validate_transfer TransactionType.transfer none src fee db u =
      .error ⟨400, "Destination account is required for transfers"⟩) ∧
    (∀ d, dst = some d → fee < 0 →
      validate_transfer TransactionType.transfer dst src fee db u =
        .error ⟨400, "Transfer fee cannot be negative"⟩) ∧
    (∀ d, dst = some d → 0 ≤ fee → src = d →
      validate_transfer TransactionType.transfer dst src fee db u =
        .error ⟨400, "Source and destination accounts cannot be the same for transfers"⟩) ∧
    (∀ d, dst = some d → 0 ≤ fee → src ≠ d →
      db.accounts.find? (fun a => decide (a.id = d ∧ a.user_id = u)) = none →
      validate_transfer TransactionType.transfer dst src fee db u =
        .error ⟨404, "Destination account not found"⟩) ∧
    (∀ d a, dst = some d → 0 ≤ fee → src ≠ d →
      db.accounts.find? (fun x => decide (x.id = d ∧ x.user_id = u)) = some a →
      validate_transfer TransactionType.transfer dst src fee db u = .ok (some a)) ∧
    (∀ res, validate_transfer TransactionType.transfer dst src fee db u = .ok res →
      ∃ d a, dst = some d ∧ 0 ≤ fee ∧ src ≠ d ∧
        db.accounts.find? (fun x => decide (x.id = d ∧ x.user_id = u)) = some a ∧
        res = some a) := by
  refine ⟨rfl, ?_, ?_, ?_, ?_, ?_⟩
  · rintro d rfl hneg
    show (if fee < 0 then _ else _) = _
    rw [if_pos hneg]
  · rintro d rfl hfee hsame
    show (if fee < 0 then _ else _) = _
    rw [if_neg (not_lt.mpr hfee), if_pos hsame]
  · rintro d rfl hfee hne hfind
    show (if fee < 0 then _ else _) = _
    rw [if_neg (not_lt.mpr hfee), if_neg hne, hfind]
  · rintro d a rfl hfee hne hfind
    show (if fee < 0 then _ else _) = _
    rw [if_neg (not_lt.mpr hfee), if_neg hne, hfind]
  · intro res h
    match hd : dst with
    | none => simp [validate_transfer] at h
    | some d =>
      replace h : (if fee < 0 then _ else _) = Except.ok res := h
      by_cases h1 : fee < 0
      · rw [if_pos h1] at h; exact absurd h (by simp)
      · rw [if_neg h1] at h
        by_cases h2 : src = d
        · rw [if_pos h2] at h; exact absurd h (by simp)
        · rw [if_neg h2] at h
          match hf : db.accounts.find? (fun x => decide (x.id = d ∧ x.user_id = u)) with
          | none => rw [hf] at h; exact absurd h (by simp)
          | some a =>
            rw [hf] at h
            refine ⟨d, a, rfl, not_lt.mp h1, h2, hf, ?_⟩
            cases h
            rfl

/-- C4 witness: the theorem applied at a concrete valid transfer from
account 1 to account 2 of user 1, resolving the destination account. -/
theorem c4_witness :
    validate_transfer TransactionType.transfer (some 2) 1 1 exDb1 1 =
      .ok (some acctB) :=
  (c4_transfer_validation (some 2) 1 1 exDb1 1).2.2.2.2.1 2 acctB rfl
    (by norm_num) (by decide) rfl

/-- C6: `validate_transaction_category_match` is a no-op on a null category,
rejects an income transaction whose category is not an income category,
rejects an expense transaction whose category is not an expense category,
accepts matching categories, and never rejects a transfer. -/
theorem c6_category_match (c : TrxCategory) :
    (∀ t, validate_transaction_category_match t none = .ok ()) ∧
    (c.type ≠ TrxCategoryType.income →
      validate_transaction_category_match TransactionType.income (some c) =
        .error ⟨400, "Income transactions must use an income category"⟩) ∧
    (c.type = TrxCategoryType.income →
      validate_transaction_category_match TransactionType.income (some c) = .ok ()) ∧
    (c.type ≠ TrxCategoryType.expense →
      validate_transaction_category_match TransactionType.expense (some c) =
        .error ⟨400, "Expense transactions must use an expense category"⟩) ∧
    (c.type = TrxCategoryType.expense →
      validate_transaction_category_match TransactionType.expense (some c) = .ok ()) ∧
    validate_transaction_category_match TransactionType.transfer (some c) = .ok () := by
  refine ⟨fun t => rfl, ?_, ?_, ?_, ?_, ?_⟩ <;>
    cases hc : c.type <;>
      simp [validate_transaction_category_match, hc]

/-- C6 witness: the theorem applied at a concrete matching income pair and
at a transfer with an expense category. -/
theorem c6_witness :
    validate_transaction_category_match TransactionType.income (some incomeCat) = .ok () ∧
    validate_transaction_category_match TransactionType.transfer (some expenseCat) = .ok () :=
  ⟨(c6_category_match incomeCat).2.2.1 rfl, (c6_category_match expenseCat).2.2.2.2.2⟩

/-- C5 counterexample: for the plain bank account `acctA`, the result dict of
`cuan_helpers.calculate_account_balance` still contains the
`payable_balance` key (with value `None`); the field is not absent as the
claim states. -/
theorem c5_counterexample :
    (CuanHelpers.calculate_account_balance exDb1 1 (some 1)).map
      (fun r => (r.payable_in_result, r.payable_balance)) = .ok (true, none) ∧
    acctA.type ≠ TrxAccountType.credit_card := by
  exact ⟨rfl, by decide⟩

/-- C5 (amended): both implementations return
`payable_balance = limit - balance` exactly for a credit-card account with a
non-null limit.  For any other account `transaction_helpers` omits the field
from its result dict, while `cuan_helpers` (and `get_accounts_with_balance`)
keeps the key present with a null value. -/
theorem c5_payable (db : Db) (A : Nat) (u : Option Nat) (account : TrxAccount)
    (r r' : BalanceSummary)
    (hl : lookup_account db A u = some account)
    (h : CuanHelpers.calculate_account_balance db A u = .ok r)
    (h' : TransactionHelpers.calculate_account_balance db A u = .ok r') :
    (∀ l, account.limit = some l → account.type = TrxAccountType.credit_card →
      r.payable_balance = some (l - r.balance) ∧
        r'.payable_balance = some (l - r'.balance) ∧ r'.payable_in_result = true) ∧
    (account.type ≠ TrxAccountType.credit_card ∨ account.limit = none →
      r.payable_balance = none ∧ r'.payable_balance = none ∧
        r'.payable_in_result = false) ∧
    r.payable_in_result = true := by
  unfold CuanHelpers.calculate_account_balance at h
  unfold TransactionHelpers.calculate_account_balance at h'
  rw [hl] at h h'
  cases h
  cases h'
  refine ⟨?_, ?_, rfl⟩
  · rintro l hlim hcc
    refine ⟨?_, ?_, ?_⟩ <;>
      simp [CuanHelpers.balance_summary, TransactionHelpers.balance_summary, hlim, hcc]
  · rintro (hcc | hlim)
    · refine ⟨?_, ?_, ?_⟩ <;>
        cases hlim : account.limit <;>
          simp [CuanHelpers.balance_summary, TransactionHelpers.balance_summary, hlim, hcc]
    · refine ⟨?_, ?_, ?_⟩ <;>
        simp [CuanHelpers.balance_summary, TransactionHelpers.balance_summary, hlim]

/-- C5 witness: the amended theorem applied at the credit-card account with
limit 500. -/
theorem c5_witness :
    ccAcct.limit = some 500 ∧ ccAcct.type = TrxAccountType.credit_card ∧
    (CuanHelpers.balance_summary exDb2.transactions 3 1 ccAcct).payable_balance =
      some (500 - (CuanHelpers.balance_summary exDb2.transactions 3 1 ccAcct).balance) :=
  ⟨rfl, rfl,
    ((c5_payable exDb2 3 (some 1) ccAcct
      (CuanHelpers.balance_summary exDb2.transactions 3 1 ccAcct)
      (TransactionHelpers.balance_summary exDb2.transactions 3 ccAcct)
      rfl rfl rfl).1 500 rfl rfl).1⟩

/-! Helper lemmas about the aggregate sums. -/

theorem sumAmount_append (l : List Transaction) (t : Transaction)
    (p : Transaction → Bool) :
    sumAmount (l ++ [t]) p = sumAmount l p + (if p t then t.amount else 0) := by
  unfold sumAmount
  rw [List.filter_append]
  cases hp : p t <;>
    simp [List.filter_cons, hp]

theorem sumFee_append (l : List Transaction) (t : Transaction)
    (p : Transaction → Bool) :
    sumFee (l ++ [t]) p = sumFee l p + (if p t then t.transfer_fee else 0) := by
  unfold sumFee
  rw [List.filter_append]
  cases hp : p t <;>
    simp [List.filter_cons, hp]

theorem sumAmount_congr (l : List Transaction) {p q : Transaction → Bool}
    (h : ∀ t ∈ l, p t = q t) : sumAmount l p = sumAmount l q := by
  unfold sumAmount
  rw [List.filter_congr h]

theorem sumFee_congr (l : List Transaction) {p q : Transaction → Bool}
    (h : ∀ t ∈ l, p t = q t) : sumFee l p = sumFee l q := by
  unfold sumFee
  rw [List.filter_congr h]

theorem sumAmount_filter (l : List Transaction) (p q : Transaction → Bool) :
    sumAmount (l.filter q) p = sumAmount l (fun t => p t && q t) := by
  unfold sumAmount
  rw [List.filter_filter]

theorem sumFee_filter (l : List Transaction) (p q : Transaction → Bool) :
    sumFee (l.filter q) p = sumFee l (fun t => p t && q t) := by
  unfold sumFee
  rw [List.filter_filter]

/-- Transactions of a store in which every transaction belongs to `uid`
survive the user filter unchanged. -/
theorem filter_user_all (txs : List Transaction) (uid : Nat)
    (H2 : ∀ t ∈ txs, t.user_id = uid) :
    txs.filter (fun t => decide (t.user_id = uid)) = txs :=
  List.filter_eq_self.mpr (fun t ht => by simp [H2 t ht])

/-- When every recorded transaction with a destination account is a
transfer, the income `case` of the single-aggregate query counts exactly the
income transactions whose source is the account, restricted to the scoping
user. -/
theorem cuan_income_restrict (txs : List Transaction) (A uid : Nat)
    (H : ∀ t ∈ txs, t.destination_account_id ≠ none →
      t.transaction_type = TransactionType.transfer) :
    CuanHelpers.income_sum txs A uid =
      TransactionHelpers.income_sum
        (txs.filter (fun t => decide (t.user_id = uid))) A := by
  unfold CuanHelpers.income_sum TransactionHelpers.income_sum
  rw [sumAmount_filter]
  apply sumAmount_congr
  intro t ht
  have hH := H t ht
  cases hdt : t.destination_account_id <;>
    by_cases hu : t.user_id = uid <;>
      by_cases ha : t.account_id = A <;>
        cases htt : t.transaction_type <;>
          simp_all [CuanHelpers.related]

/-- Same statement for the expense `case`. -/
theorem cuan_expenses_restrict (txs : List Transaction) (A uid : Nat)
    (H : ∀ t ∈ txs, t.destination_account_id ≠ none →
      t.transaction_type = TransactionType.transfer) :
    CuanHelpers.expenses_sum txs A uid =
      TransactionHelpers.expenses_sum
        (txs.filter (fun t => decide (t.user_id = uid))) A := by
  unfold CuanHelpers.expenses_sum TransactionHelpers.expenses_sum
  rw [sumAmount_filter]
  apply sumAmount_congr
  intro t ht
  have hH := H t ht
  cases hdt : t.destination_account_id <;>
    by_cases hu : t.user_id = uid <;>
      by_cases ha : t.account_id = A <;>
        cases htt : t.transaction_type <;>
          simp_all [CuanHelpers.related]

/-- The transfers-out `case` agrees with the per-type query on the scoping
user's transactions (no hypothesis needed: this `case` does check source and
type). -/
theorem cuan_out_restrict (txs : List Transaction) (A uid : Nat) :
    CuanHelpers.transfers_out_sum txs A uid =
      TransactionHelpers.transfers_out_sum
        (txs.filter (fun t => decide (t.user_id = uid))) A := by
  unfold CuanHelpers.transfers_out_sum TransactionHelpers.transfers_out_sum
  rw [sumAmount_filter]
  apply sumAmount_congr
  intro t _
  by_cases hu : t.user_id = uid <;>
    by_cases ha : t.account_id = A <;>
      cases htt : t.transaction_type <;>
        simp_all [CuanHelpers.related]

/-- Same statement for the transfer-fee `case`. -/
theorem cuan_fees_restrict (txs : List Transaction) (A uid : Nat) :
    CuanHelpers.transfer_fees_sum txs A uid =
      TransactionHelpers.transfer_fees_sum
        (txs.filter (fun t => decide (t.user_id = uid))) A := by
  unfold CuanHelpers.transfer_fees_sum TransactionHelpers.transfer_fees_sum
  rw [sumFee_filter]
  apply sumFee_congr
  intro t _
  by_cases hu : t.user_id = uid <;>
    by_cases ha : t.account_id = A <;>
      cases htt : t.transaction_type <;>
        simp_all [CuanHelpers.related]

/-- When every recorded transaction with a destination account is a
transfer, the transfers-in `case` (which checks no type) counts exactly the
transfer transactions into the account, restricted to the scoping user. -/
theorem cuan_in_restrict (txs : List Transaction) (A uid : Nat)
    (H : ∀ t ∈ txs, t.destination_account_id ≠ none →
      t.transaction_type = TransactionType.transfer) :
    CuanHelpers.transfers_in_sum txs A uid =
      TransactionHelpers.transfers_in_sum
        (txs.filter (fun t => decide (t.user_id = uid))) A := by
  unfold CuanHelpers.transfers_in_sum TransactionHelpers.transfers_in_sum
  rw [sumAmount_filter]
  apply sumAmount_congr
  intro t ht
  have hH := H t ht
  cases hdt : t.destination_account_id <;>
    by_cases hu : t.user_id = uid <;>
      cases htt : t.transaction_type <;>
        simp_all [CuanHelpers.related]

/-- C1 counterexample: in `exDb1` the only transaction is an income of 10
whose source is account 2 (with `destination_account_id = 1`).  The claim
says `total_income` of account 1 sums only transactions having account 1 as
source — that sum is 0 — and `total_transfers_in` sums only transfer
transactions — also 0.  Yet `cuan_helpers.calculate_account_balance` reports
`total_income = 10` and `total_transfers_in = 10` for account 1: the income
amount is double-counted. -/
theorem c1_counterexample :
    (CuanHelpers.calculate_account_balance exDb1 1 (some 1)).map
      (fun r => (r.total_income, r.total_transfers_in, r.balance)) =
      .ok (10, 10, 20) ∧
    TransactionHelpers.income_sum exDb1.transactions 1 = 0 ∧
    TransactionHelpers.transfers_in_sum exDb1.transactions 1 = 0 ∧
    oddIncomeTx.account_id = 2 ∧
    oddIncomeTx.transaction_type = TransactionType.income := by
  refine ⟨?_, ?_, ?_, rfl, rfl⟩
  · simp [CuanHelpers.calculate_account_balance, lookup_account, exDb1,
      CuanHelpers.balance_summary, CuanHelpers.income_sum, CuanHelpers.expenses_sum,
      CuanHelpers.transfers_out_sum, CuanHelpers.transfer_fees_sum,
      CuanHelpers.transfers_in_sum, CuanHelpers.related, sumAmount, sumFee,
      acctA, acctB, oddIncomeTx, Except.map]
    norm_num
  · simp [TransactionHelpers.income_sum, sumAmount, exDb1, oddIncomeTx]
  · simp [TransactionHelpers.transfers_in_sum, sumAmount, exDb1, oddIncomeTx]

/-- C1 (amended): `transaction_helpers.calculate_account_balance` satisfies
the claimed formula unconditionally: each returned total is the
corresponding sum over transactions having the account as source
(resp. transfer transactions having it as destination), and
`balance = income - expenses - transfers_out - transfer_fees + transfers_in`.
`cuan_helpers.calculate_account_balance` satisfies the same formula with the
totals computed over the scoping user's transactions only, and only under
the invariant that every recorded transaction carrying a destination account
is a transfer; without that invariant its income/expense/transfers-in totals
also count non-transfer transactions addressed to the account. -/
theorem c1_balance_formula (db : Db) (A uid : Nat) (r r' : BalanceSummary)
    (h : TransactionHelpers.calculate_account_balance db A (some uid) = .ok r)
    (h' : CuanHelpers.calculate_account_balance db A (some uid) = .ok r') :
    (r.total_income = TransactionHelpers.income_sum db.transactions A ∧
     r.total_expenses = TransactionHelpers.expenses_sum db.transactions A ∧
     r.total_transfers_out = TransactionHelpers.transfers_out_sum db.transactions A ∧
     r.total_transfer_fees = TransactionHelpers.transfer_fees_sum db.transactions A ∧
     r.total_transfers_in = TransactionHelpers.transfers_in_sum db.transactions A ∧
     r.balance = r.total_income - r.total_expenses - r.total_transfers_out -
       r.total_transfer_fees + r.total_transfers_in) ∧
    ((∀ t ∈ db.transactions, t.destination_account_id ≠ none →
        t.transaction_type = TransactionType.transfer) →
     r'.total_income = TransactionHelpers.income_sum
        (db.transactions.filter (fun t => decide (t.user_id = uid))) A ∧
     r'.total_expenses = TransactionHelpers.expenses_sum
        (db.transactions.filter (fun t => decide (t.user_id = uid))) A ∧
     r'.total_transfers_out = TransactionHelpers.transfers_out_sum
        (db.transactions.filter (fun t => decide (t.user_id = uid))) A ∧
     r'.total_transfer_fees = TransactionHelpers.transfer_fees_sum
        (db.transactions.filter (fun t => decide (t.user_id = uid))) A ∧
     r'.total_transfers_in = TransactionHelpers.transfers_in_sum
        (db.transactions.filter (fun t => decide (t.user_id = uid))) A ∧
     r'.balance = r'.total_income - r'.total_expenses - r'.total_transfers_out -
       r'.total_transfer_fees + r'.total_transfers_in) := by
  unfold TransactionHelpers.calculate_account_balance at h
  unfold CuanHelpers.calculate_account_balance at h'
  constructor
  · cases hl : lookup_account db A (some uid) <;> rw [hl] at h
    · exact absurd h (by simp)
    · cases h
      refine ⟨rfl, rfl, rfl, rfl, rfl, ?_⟩
      show TransactionHelpers.balance_of db.transactions A = _
      unfold TransactionHelpers.balance_of
      rfl
  · intro H
    cases hl : lookup_account db A (some uid) <;> rw [hl] at h'
    · exact absurd h' (by simp)
    · cases h'
      refine ⟨cuan_income_restrict db.transactions A uid H,
        cuan_expenses_restrict db.transactions A uid H,
        cuan_out_restrict db.transactions A uid,
        cuan_fees_restrict db.transactions A uid,
        cuan_in_restrict db.transactions A uid H, ?_⟩
      simp only [CuanHelpers.balance_summary]
      ring

/-- C1 witness: the amended theorem applied at `exDb2` (whose only
transaction is a plain income of 50 into account 3): the unconditional
transaction_helpers balance formula, and — after discharging the
only-transfers-carry-destinations invariant — the cuan total-income
equation. -/
theorem c1_witness :
    (∀ t ∈ exDb2.transactions, t.destination_account_id ≠ none →
      t.transaction_type = TransactionType.transfer) ∧
    (TransactionHelpers.balance_summary exDb2.transactions 3 ccAcct).balance =
      (TransactionHelpers.balance_summary exDb2.transactions 3 ccAcct).total_income -
      (TransactionHelpers.balance_summary exDb2.transactions 3 ccAcct).total_expenses -
      (TransactionHelpers.balance_summary exDb2.transactions 3 ccAcct).total_transfers_out -
      (TransactionHelpers.balance_summary exDb2.transactions 3 ccAcct).total_transfer_fees +
      (TransactionHelpers.balance_summary exDb2.transactions 3 ccAcct).total_transfers_in ∧
    (CuanHelpers.balance_summary exDb2.transactions 3 1 ccAcct).total_income =
      TransactionHelpers.income_sum
        (exDb2.transactions.filter (fun t => decide (t.user_id = 1))) 3 :=
  ⟨by decide,
    ((c1_balance_formula exDb2 3 1
      (TransactionHelpers.balance_summary exDb2.transactions 3 ccAcct)
      (CuanHelpers.balance_summary exDb2.transactions 3 1 ccAcct)
      rfl rfl).1).2.2.2.2.2,
    ((c1_balance_formula exDb2 3 1
      (TransactionHelpers.balance_summary exDb2.transactions 3 ccAcct)
      (CuanHelpers.balance_summary exDb2.transactions 3 1 ccAcct)
      rfl rfl).2 (by decide)).1⟩

/-- When every transaction belongs to `uid`, the grouped-query row of
`get_accounts_with_balance` computes the same `case` aggregates as
`cuan_helpers.calculate_account_balance` (whose only extra condition is the
user filter). -/
theorem gawb_row_fields (txs : List Transaction) (acct : TrxAccount)
    (uid : Nat) (H2 : ∀ t ∈ txs, t.user_id = uid) :
    (CuanHelpers.gawb_row txs acct).total_income =
      CuanHelpers.income_sum txs acct.id uid ∧
    (CuanHelpers.gawb_row txs acct).total_expenses =
      CuanHelpers.expenses_sum txs acct.id uid ∧
    (CuanHelpers.gawb_row txs acct).total_transfers_out =
      CuanHelpers.transfers_out_sum txs acct.id uid ∧
    (CuanHelpers.gawb_row txs acct).total_transfer_fees =
      CuanHelpers.transfer_fees_sum txs acct.id uid ∧
    (CuanHelpers.gawb_row txs acct).total_transfers_in =
      CuanHelpers.transfers_in_sum txs acct.id uid ∧
    (CuanHelpers.gawb_row txs acct).balance =
      CuanHelpers.income_sum txs acct.id uid +
        CuanHelpers.transfers_in_sum txs acct.id uid -
        CuanHelpers.expenses_sum txs acct.id uid -
        CuanHelpers.transfers_out_sum txs acct.id uid -
        CuanHelpers.transfer_fees_sum txs acct.id uid := by
  have e1 : sumAmount txs (fun t =>
      decide (t.account_id = acct.id ∨ t.destination_account_id = some acct.id) &&
        decide (t.transaction_type = TransactionType.income)) =
      CuanHelpers.income_sum txs acct.id uid := by
    unfold CuanHelpers.income_sum
    exact sumAmount_congr txs (fun t ht => by simp [CuanHelpers.related, H2 t ht])
  have e2 : sumAmount txs (fun t =>
      decide (t.account_id = acct.id ∨ t.destination_account_id = some acct.id) &&
        decide (t.transaction_type = TransactionType.expense)) =
      CuanHelpers.expenses_sum txs acct.id uid := by
    unfold CuanHelpers.expenses_sum
    exact sumAmount_congr txs (fun t ht => by simp [CuanHelpers.related, H2 t ht])
  have e3 : sumAmount txs (fun t =>
      decide (t.account_id = acct.id ∨ t.destination_account_id = some acct.id) &&
        decide (t.transaction_type = TransactionType.transfer ∧ t.account_id = acct.id)) =
      CuanHelpers.transfers_out_sum txs acct.id uid := by
    unfold CuanHelpers.transfers_out_sum
    exact sumAmount_congr txs (fun t ht => by simp [CuanHelpers.related, H2 t ht])
  have e4 : sumFee txs (fun t =>
      decide (t.account_id = acct.id ∨ t.destination_account_id = some acct.id) &&
        decide (t.transaction_type = TransactionType.transfer ∧ t.account_id = acct.id)) =
      CuanHelpers.transfer_fees_sum txs acct.id uid := by
    unfold CuanHelpers.transfer_fees_sum
    exact sumFee_congr txs (fun t ht => by simp [CuanHelpers.related, H2 t ht])
  have e5 : sumAmount txs (fun t =>
      decide (t.account_id = acct.id ∨ t.destination_account_id = some acct.id) &&
        decide (t.destination_account_id = some acct.id)) =
      CuanHelpers.transfers_in_sum txs acct.id uid := by
    unfold CuanHelpers.transfers_in_sum
    exact sumAmount_congr txs (fun t ht => by simp [CuanHelpers.related, H2 t ht])
  refine ⟨?_, ?_, ?_, ?_, ?_, ?_⟩ <;>
    simp only [CuanHelpers.gawb_row] <;>
      simp only [e1, e2, e3, e4, e5]

/-- C10 counterexample: on `exDb1` (one income of 10 from account 2 carrying
`destination_account_id = 1`) the three implementations disagree about
account 1: the single-aggregate implementation reports `total_income = 10`
and `balance = 20`, the per-type-query implementation reports
`total_income = 0` and `balance = 0`. -/
theorem c10_counterexample :
    (CuanHelpers.calculate_account_balance exDb1 1 (some 1)).map
      (fun r => (r.total_income, r.balance)) = .ok (10, 20) ∧
    (TransactionHelpers.calculate_account_balance exDb1 1 (some 1)).map
      (fun r => (r.total_income, r.balance)) = .ok (0, 0) := by
  constructor
  · simp [CuanHelpers.calculate_account_balance, lookup_account, exDb1,
      CuanHelpers.balance_summary, CuanHelpers.income_sum, CuanHelpers.expenses_sum,
      CuanHelpers.transfers_out_sum, CuanHelpers.transfer_fees_sum,
      CuanHelpers.transfers_in_sum, CuanHelpers.related, sumAmount, sumFee,
      acctA, acctB, oddIncomeTx, Except.map]
    norm_num
  · simp [TransactionHelpers.calculate_account_balance, lookup_account, exDb1,
      TransactionHelpers.balance_summary, TransactionHelpers.balance_of,
      TransactionHelpers.income_sum, TransactionHelpers.expenses_sum,
      TransactionHelpers.transfers_out_sum, TransactionHelpers.transfer_fees_sum,
      TransactionHelpers.transfers_in_sum, sumAmount, sumFee,
      acctA, acctB, oddIncomeTx, Except.map]

/-- C10 (amended): the three balance computations — the per-type-query
implementation, the single-aggregate implementation and the grouped
all-accounts implementation — agree on `balance` and on each of the five
totals of an account, provided every recorded transaction carrying a
destination account is a transfer and every recorded transaction belongs to
the scoping user (the account owner).  On stores violating the first
condition the aggregate implementations double-count (see the
counterexample). -/
theorem c10_three_implementations (db : Db) (A uid : Nat)
    (account : TrxAccount) (r r' : BalanceSummary)
    (H : ∀ t ∈ db.transactions, t.destination_account_id ≠ none →
      t.transaction_type = TransactionType.transfer)
    (H2 : ∀ t ∈ db.transactions, t.user_id = uid)
    (h : TransactionHelpers.calculate_account_balance db A (some uid) = .ok r)
    (h' : CuanHelpers.calculate_account_balance db A (some uid) = .ok r')
    (haid : account.id = A) (hau : account.user_id = uid)
    (hacct : account ∈ db.accounts) :
    (r'.total_income = r.total_income ∧
     r'.total_expenses = r.total_expenses ∧
     r'.total_transfers_out = r.total_transfers_out ∧
     r'.total_transfer_fees = r.total_transfer_fees ∧
     r'.total_transfers_in = r.total_transfers_in ∧
     r'.balance = r.balance) ∧
    ((CuanHelpers.gawb_row db.transactions account).total_income = r'.total_income ∧
     (CuanHelpers.gawb_row db.transactions account).total_expenses = r'.total_expenses ∧
     (CuanHelpers.gawb_row db.transactions account).total_transfers_out = r'.total_transfers_out ∧
     (CuanHelpers.gawb_row db.transactions account).total_transfer_fees = r'.total_transfer_fees ∧
     (CuanHelpers.gawb_row db.transactions account).total_transfers_in = r'.total_transfers_in ∧
     (CuanHelpers.gawb_row db.transactions account).balance = r'.balance) ∧
    (account, CuanHelpers.gawb_row db.transactions account) ∈
      CuanHelpers.get_accounts_with_balance db uid := by
  subst haid
  have hfu := filter_user_all db.transactions uid H2
  unfold TransactionHelpers.calculate_account_balance at h
  unfold CuanHelpers.calculate_account_balance at h'
  cases hl : lookup_account db account.id (some uid) <;> rw [hl] at h h'
  case none => exact absurd h (by simp)
  case some found =>
  cases h
  cases h'
  have t1 := cuan_income_restrict db.transactions account.id uid H
  have t2 := cuan_expenses_restrict db.transactions account.id uid H
  have t3 := cuan_out_restrict db.transactions account.id uid
  have t4 := cuan_fees_restrict db.transactions account.id uid
  have t5 := cuan_in_restrict db.transactions account.id uid H
  rw [hfu] at t1 t2 t3 t4 t5
  have g := gawb_row_fields db.transactions account uid H2
  refine ⟨⟨?_, ?_, ?_, ?_, ?_, ?_⟩, ⟨?_, ?_, ?_, ?_, ?_, ?_⟩, ?_⟩
  · simpa only [CuanHelpers.balance_summary, TransactionHelpers.balance_summary,
      Option.getD_some] using t1
  · simpa only [CuanHelpers.balance_summary, TransactionHelpers.balance_summary,
      Option.getD_some] using t2
  · simpa only [CuanHelpers.balance_summary, TransactionHelpers.balance_summary,
      Option.getD_some] using t3
  · simpa only [CuanHelpers.balance_summary, TransactionHelpers.balance_summary,
      Option.getD_some] using t4
  · simpa only [CuanHelpers.balance_summary, TransactionHelpers.balance_summary,
      Option.getD_some] using t5
  · simp only [CuanHelpers.balance_summary, TransactionHelpers.balance_summary,
      TransactionHelpers.balance_of, Option.getD_some, t1, t2, t3, t4, t5]
    ring
  · simpa only [CuanHelpers.balance_summary, Option.getD_some] using g.1
  · simpa only [CuanHelpers.balance_summary, Option.getD_some] using g.2.1
  · simpa only [CuanHelpers.balance_summary, Option.getD_some] using g.2.2.1
  · simpa only [CuanHelpers.balance_summary, Option.getD_some] using g.2.2.2.1
  · simpa only [CuanHelpers.balance_summary, Option.getD_some] using g.2.2.2.2.1
  · simpa only [CuanHelpers.balance_summary, Option.getD_some] using g.2.2.2.2.2
  · unfold CuanHelpers.get_accounts_with_balance
    exact List.mem_map.mpr ⟨account, List.mem_filter.mpr ⟨hacct, by simp [hau]⟩, rfl⟩

/-- C10 witness: the amended theorem applied at `exDb2` and its credit-card
account. -/
theorem c10_witness :
    (CuanHelpers.balance_summary exDb2.transactions 3 1 ccAcct).balance =
      (TransactionHelpers.balance_summary exDb2.transactions 3 ccAcct).balance ∧
    (ccAcct, CuanHelpers.gawb_row exDb2.transactions ccAcct) ∈
      CuanHelpers.get_accounts_with_balance exDb2 1 := by
  have h := c10_three_implementations exDb2 3 1 ccAcct
    (TransactionHelpers.balance_summary exDb2.transactions 3 ccAcct)
    (CuanHelpers.balance_summary exDb2.transactions 3 1 ccAcct)
    (by decide) (by decide) rfl rfl rfl rfl (by decide)
  exact ⟨h.1.2.2.2.2.2, h.2.2⟩

/-- Extracting the balance from a successful
`transaction_helpers.calculate_account_balance` call. -/
theorem th_calc_ok_balance {db : Db} {A : Nat} {u : Option Nat}
    {r : BalanceSummary}
    (h : TransactionHelpers.calculate_account_balance db A u = .ok r) :
    r.balance = TransactionHelpers.balance_of db.transactions A := by
  unfold TransactionHelpers.calculate_account_balance at h
  cases hl : lookup_account db A u <;> rw [hl] at h
  · exact absurd h (by simp)
  · cases h
    rfl

/-- Appending a transfer from `S` to `D` changes each account balance by its
contribution: `-(amount + fee)` at the source, `+amount` at the destination,
`0` elsewhere. -/
theorem balance_of_append_transfer (txs : List Transaction) (t : Transaction)
    (S D : Nat) (ht : t.transaction_type = TransactionType.transfer)
    (hS : t.account_id = S) (hD : t.destination_account_id = some D)
    (hSD : S ≠ D) (A : Nat) :
    TransactionHelpers.balance_of (txs ++ [t]) A =
      TransactionHelpers.balance_of txs A +
        (if A = S then -(t.amount + t.transfer_fee)
         else if A = D then t.amount else 0) := by
  unfold TransactionHelpers.balance_of TransactionHelpers.income_sum
    TransactionHelpers.expenses_sum TransactionHelpers.transfers_out_sum
    TransactionHelpers.transfer_fees_sum TransactionHelpers.transfers_in_sum
  rw [sumAmount_append, sumAmount_append, sumAmount_append, sumAmount_append,
    sumFee_append]
  by_cases h1 : A = S
  · subst h1
    rw [if_pos rfl]
    simp only [ht, hS, hD]
    rw [if_neg (by simp), if_neg (by simp), if_pos (by simp),
      if_pos (by simp), if_neg (by simp [Ne.symm hSD])]
    ring
  · rw [if_neg h1]
    by_cases h2 : A = D
    · subst h2
      rw [if_pos rfl]
      simp only [ht, hS, hD]
      rw [if_neg (by simp), if_neg (by simp),
        if_neg (by simp [Ne.symm h1]),
        if_neg (by simp [Ne.symm h1]), if_pos (by simp)]
      ring
    · rw [if_neg h2]
      simp only [ht, hS, hD]
      rw [if_neg (by simp), if_neg (by simp),
        if_neg (by simp [Ne.symm h1]),
        if_neg (by simp [Ne.symm h1]),
        if_neg (by simp [Ne.symm h2])]
      ring

/-- Sum of per-account transfer contributions over ids containing neither
endpoint. -/
theorem contribSum_zero (S D : Nat) (a f : Rat) (ids : List Nat)
    (hS : S ∉ ids) (hD : D ∉ ids) :
    (ids.map (fun c => if c = S then -(a + f) else if c = D then a else 0)).sum
      = 0 := by
  induction ids with
  | nil => simp
  | cons c rest ih =>
    simp only [List.mem_cons, not_or] at hS hD
    have h1 : c ≠ S := fun h => hS.1 h.symm
    have h2 : c ≠ D := fun h => hD.1 h.symm
    rw [List.map_cons, List.sum_cons, if_neg h1, if_neg h2, ih hS.2 hD.2,
      add_zero]

/-- Sum of contributions over duplicate-free ids containing the destination
but not the source. -/
theorem contribSum_dest (S D : Nat) (a f : Rat) (ids : List Nat)
    (hnd : ids.Nodup) (hS : S ∉ ids) (hD : D ∈ ids) :
    (ids.map (fun c => if c = S then -(a + f) else if c = D then a else 0)).sum
      = a := by
  induction ids with
  | nil => cases hD
  | cons c rest ih =>
    rw [List.nodup_cons] at hnd
    simp only [List.mem_cons, not_or] at hS
    have h1 : c ≠ S := fun h => hS.1 h.symm
    rcases List.mem_cons.mp hD with rfl | hD'
    · rw [List.map_cons, List.sum_cons, if_neg h1, if_pos rfl,
        contribSum_zero S D a f rest hS.2 hnd.1, add_zero]
    · by_cases h2 : c = D
      · exact absurd hD' (h2 ▸ hnd.1)
      · rw [List.map_cons, List.sum_cons, if_neg h1, if_neg h2,
          ih hnd.2 hS.2 hD', zero_add]

/-- Sum of contributions over duplicate-free ids containing the source but
not the destination. -/
theorem contribSum_source (S D : Nat) (a f : Rat) (ids : List Nat)
    (hnd : ids.Nodup) (hS : S ∈ ids) (hD : D ∉ ids) :
    (ids.map (fun c => if c = S then -(a + f) else if c = D then a else 0)).sum
      = -(a + f) := by
  induction ids with
  | nil => cases hS
  | cons c rest ih =>
    rw [List.nodup_cons] at hnd
    simp only [List.mem_cons, not_or] at hD
    have h2 : c ≠ D := fun h => hD.1 h.symm
    rcases List.mem_cons.mp hS with rfl | hS'
    · rw [List.map_cons, List.sum_cons, if_pos rfl,
        contribSum_zero S D a f rest hnd.1 hD.2, add_zero]
    · by_cases h1 : c = S
      · exact absurd hS' (h1 ▸ hnd.1)
      · rw [List.map_cons, List.sum_cons, if_neg h1, if_neg h2,
          ih hnd.2 hS' hD.2, zero_add]

/-- Sum of contributions over duplicate-free ids containing both endpoints:
the fee is all that leaves the system. -/
theorem contribSum_both (S D : Nat) (a f : Rat) (hSD : S ≠ D) (ids : List Nat)
    (hnd : ids.Nodup) (hS : S ∈ ids) (hD : D ∈ ids) :
    (ids.map (fun c => if c = S then -(a + f) else if c = D then a else 0)).sum
      = -f := by
  induction ids with
  | nil => cases hS
  | cons c rest ih =>
    rw [List.nodup_cons] at hnd
    rcases List.mem_cons.mp hS with rfl | hS'
    · have hD' : D ∈ rest := by
        rcases List.mem_cons.mp hD with h | h
        · exact absurd h.symm hSD
        · exact h
      rw [List.map_cons, List.sum_cons, if_pos rfl,
        contribSum_dest S D a f rest hnd.2 hnd.1 hD']
      ring
    · rcases List.mem_cons.mp hD with rfl | hD'
      · rw [List.map_cons, List.sum_cons, if_neg (fun h => hSD h.symm),
          if_pos rfl, contribSum_source S D a f rest hnd.2 hS' hnd.1]
        ring
      · by_cases h1 : c = S
        · exact absurd hS' (h1 ▸ hnd.1)
        · by_cases h2 : c = D
          · exact absurd hD' (h2 ▸ hnd.1)
          · rw [List.map_cons, List.sum_cons, if_neg h1, if_neg h2,
              ih hnd.2 hS' hD', zero_add]

/-- Extracting the balance from a successful user-scoped
`cuan_helpers.calculate_account_balance` call. -/
theorem cuan_calc_ok_balance {db : Db} {A uid : Nat} {r : BalanceSummary}
    (h : CuanHelpers.calculate_account_balance db A (some uid) = .ok r) :
    r.balance = CuanHelpers.income_sum db.transactions A uid +
      CuanHelpers.transfers_in_sum db.transactions A uid -
      CuanHelpers.expenses_sum db.transactions A uid -
      CuanHelpers.transfers_out_sum db.transactions A uid -
      CuanHelpers.transfer_fees_sum db.transactions A uid := by
  unfold CuanHelpers.calculate_account_balance at h
  cases hl : lookup_account db A (some uid) <;> rw [hl] at h
  · exact absurd h (by simp)
  · cases h
    rfl

/-- Appending a transfer of the scoping user from `S` to `D` changes the
balance computed by the single-aggregate query by the same contributions as
the per-type queries: `-(amount + fee)` at the source, `+amount` at the
destination, `0` elsewhere. -/
theorem cuan_balance_append_transfer (txs : List Transaction) (t : Transaction)
    (S D uid : Nat) (ht : t.transaction_type = TransactionType.transfer)
    (hS : t.account_id = S) (hD : t.destination_account_id = some D)
    (hSD : S ≠ D) (hu : t.user_id = uid) (A : Nat) :
    CuanHelpers.income_sum (txs ++ [t]) A uid +
      CuanHelpers.transfers_in_sum (txs ++ [t]) A uid -
      CuanHelpers.expenses_sum (txs ++ [t]) A uid -
      CuanHelpers.transfers_out_sum (txs ++ [t]) A uid -
      CuanHelpers.transfer_fees_sum (txs ++ [t]) A uid =
    (CuanHelpers.income_sum txs A uid +
      CuanHelpers.transfers_in_sum txs A uid -
      CuanHelpers.expenses_sum txs A uid -
      CuanHelpers.transfers_out_sum txs A uid -
      CuanHelpers.transfer_fees_sum txs A uid) +
      (if A = S then -(t.amount + t.transfer_fee)
       else if A = D then t.amount else 0) := by
  unfold CuanHelpers.income_sum CuanHelpers.expenses_sum
    CuanHelpers.transfers_out_sum CuanHelpers.transfer_fees_sum
    CuanHelpers.transfers_in_sum
  rw [sumAmount_append, sumAmount_append, sumAmount_append, sumAmount_append,
    sumFee_append]
  by_cases h1 : A = S
  · rw [if_neg (by simp [ht]),
      if_neg (by simp [hD, h1, Ne.symm hSD]),
      if_neg (by simp [ht]),
      if_pos (by simp [CuanHelpers.related, ht, hS, hD, hu, h1]),
      if_pos (by simp [CuanHelpers.related, ht, hS, hD, hu, h1]),
      if_pos h1]
    ring
  · by_cases h2 : A = D
    · rw [if_neg (by simp [ht]),
        if_pos (by simp [CuanHelpers.related, hD, hu, h2]),
        if_neg (by simp [ht]),
        if_neg (by simp [hS, h2, hSD]),
        if_neg (by simp [hS, h2, hSD]),
        if_neg h1, if_pos h2]
      ring
    · rw [if_neg (by simp [ht]),
        if_neg (by simp [hD, Ne.symm h2]),
        if_neg (by simp [ht]),
        if_neg (by simp [hS, Ne.symm h1]),
        if_neg (by simp [hS, Ne.symm h1]),
        if_neg h1, if_neg h2]
      ring

/-- C9: appending a validly constructed transfer of amount `a` with fee `f`
from source `S` to destination `D`, with the scoping user's id as
`create_transaction` stores it, lowers the computed balance of `S` by
`a + f`, raises the balance of `D` by `a`, leaves every other account
unchanged, and lowers the sum of balances over any duplicate-free set of
accounts containing `S` and `D` by exactly `f`; both
`transaction_helpers.calculate_account_balance` and user-scoped
`cuan_helpers.calculate_account_balance` report balances shifted by exactly
those contributions. -/
theorem c9_transfer_effect (db : Db) (t : Transaction) (S D uid : Nat)
    (u : Option Nat) (ht : t.transaction_type = TransactionType.transfer)
    (hS : t.account_id = S) (hD : t.destination_account_id = some D)
    (hSD : S ≠ D) (hu : t.user_id = uid) :
    TransactionHelpers.balance_of (db.transactions ++ [t]) S =
      TransactionHelpers.balance_of db.transactions S -
        (t.amount + t.transfer_fee) ∧
    TransactionHelpers.balance_of (db.transactions ++ [t]) D =
      TransactionHelpers.balance_of db.transactions D + t.amount ∧
    (∀ C, C ≠ S → C ≠ D →
      TransactionHelpers.balance_of (db.transactions ++ [t]) C =
        TransactionHelpers.balance_of db.transactions C) ∧
    (∀ ids : List Nat, ids.Nodup → S ∈ ids → D ∈ ids →
      (ids.map (TransactionHelpers.balance_of (db.transactions ++ [t]))).sum =
        (ids.map (TransactionHelpers.balance_of db.transactions)).sum -
          t.transfer_fee) ∧
    (∀ A r r', TransactionHelpers.calculate_account_balance db A u = .ok r →
      TransactionHelpers.calculate_account_balance
        { db with transactions := db.transactions ++ [t] } A u = .ok r' →
      r'.balance = r.balance +
        (if A = S then -(t.amount + t.transfer_fee)
         else if A = D then t.amount else 0)) ∧
    (∀ A r r', CuanHelpers.calculate_account_balance db A (some uid) = .ok r →
      CuanHelpers.calculate_account_balance
        { db with transactions := db.transactions ++ [t] } A (some uid) = .ok r' →
      r'.balance = r.balance +
        (if A = S then -(t.amount + t.transfer_fee)
         else if A = D then t.amount else 0)) ∧
    (∀ ids : List Nat, ids.Nodup → S ∈ ids → D ∈ ids →
      (ids.map (fun c =>
        CuanHelpers.income_sum (db.transactions ++ [t]) c uid +
          CuanHelpers.transfers_in_sum (db.transactions ++ [t]) c uid -
          CuanHelpers.expenses_sum (db.transactions ++ [t]) c uid -
          CuanHelpers.transfers_out_sum (db.transactions ++ [t]) c uid -
          CuanHelpers.transfer_fees_sum (db.transactions ++ [t]) c uid)).sum =
      (ids.map (fun c =>
        CuanHelpers.income_sum db.transactions c uid +
          CuanHelpers.transfers_in_sum db.transactions c uid -
          CuanHelpers.expenses_sum db.transactions c uid -
          CuanHelpers.transfers_out_sum db.transactions c uid -
          CuanHelpers.transfer_fees_sum db.transactions c uid)).sum -
        t.transfer_fee) := by
  have key := balance_of_append_transfer db.transactions t S D ht hS hD hSD
  have ckey := cuan_balance_append_transfer db.transactions t S D uid ht hS hD hSD hu
  refine ⟨?_, ?_, ?_, ?_, ?_, ?_, ?_⟩
  · rw [key S, if_pos rfl]
    ring
  · rw [key D, if_neg (Ne.symm hSD), if_pos rfl]
  · intro C h1 h2
    rw [key C, if_neg h1, if_neg h2, add_zero]
  · intro ids hnd hSm hDm
    rw [List.map_congr_left (fun c _ => key c), List.sum_map_add,
      contribSum_both S D t.amount t.transfer_fee hSD ids hnd hSm hDm]
    ring
  · intro A r r' h h'
    rw [th_calc_ok_balance h, th_calc_ok_balance h', key A]
  · intro A r r' h h'
    rw [cuan_calc_ok_balance h, cuan_calc_ok_balance h']
    exact ckey A
  · intro ids hnd hSm hDm
    rw [List.map_congr_left (fun c _ => ckey c), List.sum_map_add,
      contribSum_both S D t.amount t.transfer_fee hSD ids hnd hSm hDm]
    ring

/-- C9 witness: the theorem applied to the concrete transfer of 200 with
fee 5 from account 1 to account 2 appended to `exDb1`, covering both the
per-type-query balance and the user-scoped single-aggregate balance. -/
theorem c9_witness :
    TransactionHelpers.balance_of (exDb1.transactions ++ [exTransfer]) 1 =
      TransactionHelpers.balance_of exDb1.transactions 1 -
        (exTransfer.amount + exTransfer.transfer_fee) ∧
    (CuanHelpers.balance_summary (exDb1.transactions ++ [exTransfer]) 1 1 acctA).balance =
      (CuanHelpers.balance_summary exDb1.transactions 1 1 acctA).balance -
        (exTransfer.amount + exTransfer.transfer_fee) := by
  have h := c9_transfer_effect exDb1 exTransfer 1 2 1 none rfl rfl rfl
    (by decide) rfl
  refine ⟨h.1, ?_⟩
  have h6 := h.2.2.2.2.2.1 1
    (CuanHelpers.balance_summary exDb1.transactions 1 1 acctA)
    (CuanHelpers.balance_summary (exDb1.transactions ++ [exTransfer]) 1 1 acctA)
    rfl rfl
  simp at h6
  linarith [h6]

/-- C2 counterexample: the credit-card account of `exDb2` has balance 50.
Creating an expense of 100 against it would leave `50 - 100 ≤ 0`, so the
claim demands rejection — but `create_transaction` accepts and writes the
transaction, because the code only checks that the balance before the
expense is `≤ 0`. -/
theorem c2_counterexample :
    (create_transaction exDb2 bigExpense 1 12 0).isOk = true ∧
    (CuanHelpers.calculate_account_balance exDb2 3 none).map
      (fun r => r.balance) = .ok 50 ∧
    (50 : Rat) - bigExpense.amount ≤ 0 := by
  refine ⟨?_, ?_, by norm_num [bigExpense]⟩
  · simp [create_transaction, validate_account, validate_category,
      validate_transaction_category_match, validate_transfer,
      prepare_transaction_for_db, CuanHelpers.calculate_account_balance,
      CuanHelpers.balance_summary, CuanHelpers.income_sum,
      CuanHelpers.expenses_sum, CuanHelpers.transfers_out_sum,
      CuanHelpers.transfer_fees_sum, CuanHelpers.transfers_in_sum,
      CuanHelpers.related, sumAmount, sumFee, lookup_account,
      exDb2, bigExpense, ccAcct, incomeCat, expenseCat, seedIncome,
      Except.isOk, Except.toBool, bind, Except.bind]
    norm_num
  · simp [CuanHelpers.calculate_account_balance, CuanHelpers.balance_summary,
      CuanHelpers.income_sum, CuanHelpers.expenses_sum,
      CuanHelpers.transfers_out_sum, CuanHelpers.transfer_fees_sum,
      CuanHelpers.transfers_in_sum, CuanHelpers.related, sumAmount, sumFee,
      lookup_account, exDb2, ccAcct, seedIncome, Except.map]

/-- C2 (amended): for an expense on a credit-card account with all other
validations passing, `create_transaction` rejects with the
no-available-balance error exactly when the recomputed current balance is
`≤ 0` — the new expense amount is not subtracted first — and otherwise
appends the transaction; `update_transaction` runs its guard only when the
prior transaction was not an expense or the amount increases, adds the prior
amount back when the prior row was an expense on the same account, and
rejects exactly when that adjusted balance minus the new amount is strictly
negative; on any rejection nothing is written. -/
theorem c2_credit_card_guard (db : Db) (tx : TransactionCreate)
    (u newId : Nat) (cAt : Int) (account : TrxAccount)
    (cat : Option TrxCategory) (bd : BalanceSummary)
    (h1 : validate_account db tx.account_id u = .ok account)
    (hcc : account.type = TrxAccountType.credit_card)
    (hexp : tx.transaction_type = TransactionType.expense)
    (h2 : validate_category db tx.category_id u = .ok cat)
    (h3 : validate_transaction_category_match tx.transaction_type cat = .ok ())
    (h4 : CuanHelpers.calculate_account_balance db account.id none = .ok bd)
    (h5 : validate_transfer tx.transaction_type tx.destination_account_id
      tx.account_id tx.transfer_fee db u = .ok none)
    (txId : Nat) (upd : TransactionCreate) (existing : Transaction)
    (account2 : TrxAccount) (cat2 : Option TrxCategory) (bd2 : BalanceSummary)
    (e1 : db.transactions.find?
      (fun t => decide (t.id = txId ∧ t.user_id = u)) = some existing)
    (e2 : validate_account db upd.account_id u = .ok account2)
    (hcc2 : account2.type = TrxAccountType.credit_card)
    (hexp2 : upd.transaction_type = TransactionType.expense)
    (e3 : validate_category db upd.category_id u = .ok cat2)
    (e4 : validate_transaction_category_match upd.transaction_type cat2 = .ok ())
    (e5 : CuanHelpers.calculate_account_balance db account2.id none = .ok bd2)
    (e6 : validate_transfer upd.transaction_type upd.destination_account_id
      upd.account_id upd.transfer_fee db u = .ok none) :
    (create_transaction db tx u newId cAt =
      if bd.balance ≤ 0 then
        .error ⟨400, "Cannot create expense with this credit card - no available balance. Please top up by creating a transfer to this account."⟩
      else
        .ok { db with transactions :=
          db.transactions ++ [prepare_transaction_for_db tx u newId cAt] }) ∧
    (update_transaction db txId upd u =
      if (existing.transaction_type ≠ TransactionType.expense ∨
            existing.amount < upd.amount) ∧
          bd2.balance +
            (if existing.transaction_type = TransactionType.expense ∧
                existing.account_id = upd.account_id
             then existing.amount else 0) - upd.amount < 0 then
        .error ⟨400, "Insufficient credit card balance for this update. Please top up the account."⟩
      else
        .ok { db with transactions := db.transactions.map (fun t =>
          if t.id = txId ∧ t.user_id = u then apply_update t upd else t) }) := by
  constructor
  · rw [hexp] at h3 h5
    simp only [create_transaction, h1, h2, h3, h4, h5, hexp, hcc,
      bind, Except.bind, and_self, if_true, reduceIte]
  · rw [hexp2] at e4 e6
    simp only [update_transaction, e1, e2, e3, e4, e5, e6, hexp2, hcc2,
      bind, Except.bind, true_and, and_self, if_true, reduceIte]
    by_cases htrig : existing.transaction_type ≠ TransactionType.expense ∨
        existing.amount < upd.amount
    · simp only [htrig, if_true, true_and, reduceIte]
    · simp [htrig]

/-- C2 witness: the amended theorem applied at `exDb3` (credit-card balance
20, existing expense of 30): updating the expense to 60 is rejected, while
creating the 100 expense on `exDb2` (balance 50) is accepted. -/
theorem c2_witness :
    update_transaction exDb3 20 updExpense60 1 =
      .error ⟨400, "Insufficient credit card balance for this update. Please top up the account."⟩ ∧
    create_transaction exDb2 bigExpense 1 12 0 =
      .ok { exDb2 with transactions :=
        exDb2.transactions ++ [prepare_transaction_for_db bigExpense 1 12 0] } := by
  have h3 := c2_credit_card_guard exDb3 bigExpense 1 12 0 ccAcct
    (some expenseCat)
    (CuanHelpers.balance_summary exDb3.transactions 3 1 ccAcct)
    rfl rfl rfl rfl rfl rfl rfl
    20 updExpense60 seedExpense ccAcct (some expenseCat)
    (CuanHelpers.balance_summary exDb3.transactions 3 1 ccAcct)
    rfl rfl rfl rfl rfl rfl rfl rfl
  have h2 := c2_credit_card_guard exDb2 bigExpense 1 12 0 ccAcct
    (some expenseCat)
    (CuanHelpers.balance_summary exDb2.transactions 3 1 ccAcct)
    rfl rfl rfl rfl rfl rfl rfl
    11 updExpense60 seedIncome ccAcct (some expenseCat)
    (CuanHelpers.balance_summary exDb2.transactions 3 1 ccAcct)
    rfl rfl rfl rfl rfl rfl rfl rfl
  constructor
  · rw [h3.2, if_pos]
    constructor
    · right
      show seedExpense.amount < updExpense60.amount
      norm_num [seedExpense, updExpense60]
    · have hbal : (CuanHelpers.balance_summary exDb3.transactions 3 1 ccAcct).balance = 20 := by
        simp [CuanHelpers.balance_summary, CuanHelpers.income_sum,
          CuanHelpers.expenses_sum, CuanHelpers.transfers_out_sum,
          CuanHelpers.transfer_fees_sum, CuanHelpers.transfers_in_sum,
          CuanHelpers.related, sumAmount, sumFee, exDb3, seedIncome, seedExpense]
        norm_num
      rw [hbal, if_pos (by exact ⟨rfl, rfl⟩)]
      norm_num [seedExpense, updExpense60]
  · rw [h2.1, if_neg]
    have hbal : (CuanHelpers.balance_summary exDb2.transactions 3 1 ccAcct).balance = 50 := by
      simp [CuanHelpers.balance_summary, CuanHelpers.income_sum,
        CuanHelpers.expenses_sum, CuanHelpers.transfers_out_sum,
        CuanHelpers.transfer_fees_sum, CuanHelpers.transfers_in_sum,
        CuanHelpers.related, sumAmount, sumFee, exDb2, seedIncome]
    rw [hbal]
    norm_num

/-- C7 counterexample: filtering by an account name matching no account
makes `get_filtered_transactions` raise NotFound, but the listing endpoint
`get_transactions` catches the exception and returns a success-shaped body
(empty data, `total_count = 0`, the error detail as `message`) instead of
propagating the error. -/
theorem c7_counterexample :
    get_filtered_transactions exDb1 1 (some "zzz") none none none none none
      "created_at" "desc" exNow = .error ⟨404, "Account with name not found"⟩ ∧
    get_transactions exDb1 1 (some "zzz") none none none none none
      "created_at" "desc" 10 0 exNow =
      { data := [], total_count := 0, has_more := false, limit := 10,
        skip := 0, message := "Account with name not found" } := by
  exact ⟨by rfl, by rfl⟩

/-- C7 (amended): validation failures are surfaced to the caller unrecovered
by the mutation operations — whichever validation stage of
`create_transaction` or `update_transaction` raises a domain error, the
operation returns exactly that error and writes nothing — but the
transaction-listing operation is the exception: whenever its filtering
helper raises a domain error, `get_transactions` swallows it and returns a
success result with empty data whose message is the error detail. -/
theorem c7_error_recovery (db : Db) (u : Nat)
    (an cn tt : Option String) (sd ed : Option DateTime)
    (dft : Option String) (ob so : String) (limit skip : Nat)
    (now : DateTime) (tx : TransactionCreate) (newId : Nat) (cAt : Int)
    (txId : Nat) (upd : TransactionCreate) :
    (∀ e, get_filtered_transactions db u an cn tt sd ed dft ob so now = .error e →
      get_transactions db u an cn tt sd ed dft ob so limit skip now =
        { data := [], total_count := 0, has_more := false, limit := limit,
          skip := skip, message := e.detail }) ∧
    (∀ e, validate_account db tx.account_id u = .error e →
      create_transaction db tx u newId cAt = .error e) ∧
    (∀ e account, validate_account db tx.account_id u = .ok account →
      validate_category db tx.category_id u = .error e →
      create_transaction db tx u newId cAt = .error e) ∧
    (∀ e account cat, validate_account db tx.account_id u = .ok account →
      validate_category db tx.category_id u = .ok cat →
      validate_transaction_category_match tx.transaction_type cat = .error e →
      create_transaction db tx u newId cAt = .error e) ∧
    (∀ e account cat, validate_account db tx.account_id u = .ok account →
      validate_category db tx.category_id u = .ok cat →
      validate_transaction_category_match tx.transaction_type cat = .ok () →
      tx.transaction_type = TransactionType.expense ∧
        account.type = TrxAccountType.credit_card →
      CuanHelpers.calculate_account_balance db account.id none = .error e →
      create_transaction db tx u newId cAt = .error e) ∧
    (∀ e account cat bd, validate_account db tx.account_id u = .ok account →
      validate_category db tx.category_id u = .ok cat →
      validate_transaction_category_match tx.transaction_type cat = .ok () →
      tx.transaction_type = TransactionType.expense ∧
        account.type = TrxAccountType.credit_card →
      CuanHelpers.calculate_account_balance db account.id none = .ok bd →
      ¬bd.balance ≤ 0 →
      validate_transfer tx.transaction_type tx.destination_account_id
        tx.account_id tx.transfer_fee db u = .error e →
      create_transaction db tx u newId cAt = .error e) ∧
    (∀ e account cat, validate_account db tx.account_id u = .ok account →
      validate_category db tx.category_id u = .ok cat →
      validate_transaction_category_match tx.transaction_type cat = .ok () →
      ¬(tx.transaction_type = TransactionType.expense ∧
        account.type = TrxAccountType.credit_card) →
      validate_transfer tx.transaction_type tx.destination_account_id
        tx.account_id tx.transfer_fee db u = .error e →
      create_transaction db tx u newId cAt = .error e) ∧
    (db.transactions.find? (fun t => decide (t.id = txId ∧ t.user_id = u)) = none →
      update_transaction db txId upd u = .error ⟨404, "Transaction not found"⟩) ∧
    (∀ e existing, db.transactions.find?
        (fun t => decide (t.id = txId ∧ t.user_id = u)) = some existing →
      validate_account db upd.account_id u = .error e →
      update_transaction db txId upd u = .error e) ∧
    (∀ e existing account, db.transactions.find?
        (fun t => decide (t.id = txId ∧ t.user_id = u)) = some existing →
      validate_account db upd.account_id u = .ok account →
      validate_category db upd.category_id u = .error e →
      update_transaction db txId upd u = .error e) ∧
    (∀ e existing account cat, db.transactions.find?
        (fun t => decide (t.id = txId ∧ t.user_id = u)) = some existing →
      validate_account db upd.account_id u = .ok account →
      validate_category db upd.category_id u = .ok cat →
      validate_transaction_category_match upd.transaction_type cat = .error e →
      update_transaction db txId upd u = .error e) ∧
    (∀ e existing account cat, db.transactions.find?
        (fun t => decide (t.id = txId ∧ t.user_id = u)) = some existing →
      validate_account db upd.account_id u = .ok account →
      validate_category db upd.category_id u = .ok cat →
      validate_transaction_category_match upd.transaction_type cat = .ok () →
      upd.transaction_type = TransactionType.expense ∧
        account.type = TrxAccountType.credit_card ∧
        (existing.transaction_type ≠ TransactionType.expense ∨
          existing.amount < upd.amount) →
      CuanHelpers.calculate_account_balance db account.id none = .error e →
      update_transaction db txId upd u = .error e) ∧
    (∀ e existing account cat bd, db.transactions.find?
        (fun t => decide (t.id = txId ∧ t.user_id = u)) = some existing →
      validate_account db upd.account_id u = .ok account →
      validate_category db upd.category_id u = .ok cat →
      validate_transaction_category_match upd.transaction_type cat = .ok () →
      upd.transaction_type = TransactionType.expense ∧
        account.type = TrxAccountType.credit_card ∧
        (existing.transaction_type ≠ TransactionType.expense ∨
          existing.amount < upd.amount) →
      CuanHelpers.calculate_account_balance db account.id none = .ok bd →
      ¬(bd.balance +
          (if existing.transaction_type = TransactionType.expense ∧
              existing.account_id = upd.account_id
           then existing.amount else 0) - upd.amount < 0) →
      validate_transfer upd.transaction_type upd.destination_account_id
        upd.account_id upd.transfer_fee db u = .error e →
      update_transaction db txId upd u = .error e) ∧
    (∀ e existing account cat, db.transactions.find?
        (fun t => decide (t.id = txId ∧ t.user_id = u)) = some existing →
      validate_account db upd.account_id u = .ok account →
      validate_category db upd.category_id u = .ok cat →
      validate_transaction_category_match upd.transaction_type cat = .ok () →
      ¬(upd.transaction_type = TransactionType.expense ∧
        account.type = TrxAccountType.credit_card ∧
        (existing.transaction_type ≠ TransactionType.expense ∨
          existing.amount < upd.amount)) →
      validate_transfer upd.transaction_type upd.destination_account_id
        upd.account_id upd.transfer_fee db u = .error e →
      update_transaction db txId upd u = .error e) := by
  refine ⟨?_, ?_, ?_, ?_, ?_, ?_, ?_, ?_, ?_, ?_, ?_, ?_, ?_, ?_⟩
  · intro e he
    unfold get_transactions
    rw [he]
  · intro e h1
    simp [create_transaction, h1, bind, Except.bind]
  · intro e account h1 h2
    simp [create_transaction, h1, h2, bind, Except.bind]
  · intro e account cat h1 h2 h3
    simp [create_transaction, h1, h2, h3, bind, Except.bind]
  · intro e account cat h1 h2 h3 hc h4
    simp only [create_transaction, h1, h2, h3, bind, Except.bind]
    rw [if_pos hc]
    simp [h4, bind, Except.bind]
  · intro e account cat bd h1 h2 h3 hc h4 hb h5
    simp only [create_transaction, h1, h2, h3, bind, Except.bind]
    rw [if_pos hc]
    simp only [h4, bind, Except.bind]
    rw [if_neg hb]
    simp [h5, bind, Except.bind]
  · intro e account cat h1 h2 h3 hc h5
    simp only [create_transaction, h1, h2, h3, bind, Except.bind]
    rw [if_neg hc]
    simp [h5, bind, Except.bind]
  · intro hf
    unfold update_transaction
    rw [hf]
    rfl
  · intro e existing hf h1
    unfold update_transaction
    rw [hf]
    simp [h1, bind, Except.bind]
  · intro e existing account hf h1 h2
    unfold update_transaction
    rw [hf]
    simp [h1, h2, bind, Except.bind]
  · intro e existing account cat hf h1 h2 h3
    unfold update_transaction
    rw [hf]
    simp [h1, h2, h3, bind, Except.bind]
  · intro e existing account cat hf h1 h2 h3 hc h4
    unfold update_transaction
    rw [hf]
    simp only [h1, h2, h3, bind, Except.bind]
    rw [if_pos hc]
    simp [h4, bind, Except.bind]
  · intro e existing account cat bd hf h1 h2 h3 hc h4 hb h5
    unfold update_transaction
    rw [hf]
    simp only [h1, h2, h3, bind, Except.bind]
    rw [if_pos hc]
    simp only [h4, bind, Except.bind]
    rw [if_neg hb]
    simp [h5, bind, Except.bind]
  · intro e existing account cat hf h1 h2 h3 hc h5
    unfold update_transaction
    rw [hf]
    simp only [h1, h2, h3, bind, Except.bind]
    rw [if_neg hc]
    simp [h5, bind, Except.bind]

/-- C7 witness: the theorem applied concretely — the swallowed account-name
filter error, a create against a missing account, a create whose expense
uses an income category, and an update of a missing transaction. -/
theorem c7_witness :
    get_transactions exDb1 1 (some "zzz") none none none none none
      "created_at" "desc" 10 0 exNow =
      { data := [], total_count := 0, has_more := false, limit := 10,
        skip := 0, message := "Account with name not found" } ∧
    create_transaction exDb1 bigExpense 1 12 0 =
      .error ⟨404, "TrxAccount not found"⟩ ∧
    create_transaction exDb2
      ⟨0, "mismatched category", 10, TransactionType.expense, 3, some 5, none, 0⟩
      1 13 0 =
      .error ⟨400, "Expense transactions must use an expense category"⟩ ∧
    update_transaction exDb1 99 bigExpense 1 =
      .error ⟨404, "Transaction not found"⟩ := by
  have h := c7_error_recovery exDb1 1 (some "zzz") none none none none none
    "created_at" "desc" 10 0 exNow bigExpense 12 0 99 bigExpense
  have h2 := c7_error_recovery exDb2 1 none none none none none none
    "created_at" "desc" 10 0 exNow
    ⟨0, "mismatched category", 10, TransactionType.expense, 3, some 5, none, 0⟩
    13 0 99 bigExpense
  exact ⟨h.1 ⟨404, "Account with name not found"⟩ (by rfl),
    h.2.1 ⟨404, "TrxAccount not found"⟩ rfl,
    h2.2.2.2.1 ⟨400, "Expense transactions must use an expense category"⟩
      ccAcct (some incomeCat) rfl rfl rfl,
    h.2.2.2.2.2.2.2.1 rfl⟩

end Yupi
